import Mathlib

/-!
# mylibgfx: event dispatch, renderer life cycle and string-cache font

A shallow embedding of `src/libGfxEvent.cpp`, `src/libGfx.cpp` and
`src/FontA.cpp`, followed by the properties established about them.

Conventions of the embedding

* A `std::unordered_map` that the source reads and writes only through
  `operator[]` is a total function: `operator[]` default-constructs a missing
  entry (`false`, the empty vector), so a lookup of a key never written yields
  the default and the insertion it performs is not observable.
* A pointer is an `Option` (`none` is `nullptr`) or, for opaque platform
  handles, a `Nat` with `0` as the null handle.
* Calls into SDL, OpenGL, GLEW and SDL_ttf are recorded in a command list in
  the order the source issues them; what those libraries answer (generated
  names, status flags, error codes) is an explicit argument of the embedded
  function.
* A listener callback is an opaque value of a type `κ`; invoking it is recorded
  as a pair of the callback and the event it received. Callbacks do not reach
  back into the dispatcher.
* A `float` is the rational it denotes. The arithmetic of `DrawTexture` and of
  the atlas `DrawText` is rounded to single precision operation by operation
  (`Float32`, `glm.float32`); the cosine and sine of the C library are
  arguments (`Libm`).
-/

set_option linter.dupNamespace false

namespace gfx

/-! ## Core value types (`include/libGfx.h`) -/

/-- Four 8-bit channels. -/
structure Color where
  r : Nat
  g : Nat
  b : Nat
  a : Nat
deriving DecidableEq, Repr

/-- `Color(uint32_t rgba)`: unpacks `0xRRGGBBAA`. -/
def Color.ofRGBA (rgba : Nat) : Color :=
  { r := (rgba >>> 24) &&& 0xFF
    g := (rgba >>> 16) &&& 0xFF
    b := (rgba >>> 8) &&& 0xFF
    a := rgba &&& 0xFF }

def White : Color := Color.ofRGBA 0xFFFFFFFF
def Red : Color := Color.ofRGBA 0xFF0000FF

/-- Screen point. The coordinates are exact rationals standing for the
`float` fields. -/
structure Point where
  x : ℚ
  y : ℚ
deriving DecidableEq, Repr

/-- Rectangle `x, y, w, h`; exact rationals standing for the `float` fields. -/
structure Rect where
  x : ℚ
  y : ℚ
  w : ℚ
  h : ℚ
deriving DecidableEq, Repr

namespace Event

/-! ## Event types (`include/libGfxEvent.h`) -/

inductive EventType where
  | None
  | MouseButtonDown
  | MouseButtonUp
  | MouseMotion
  | MouseWheel
  | KeyDown
  | KeyUp
  | TextInput
deriving DecidableEq, Repr

inductive MouseButton where
  | Left
  | Middle
  | Right
  | X1
  | X2
  | Unknown
deriving DecidableEq, Repr

inductive KeyCode where
  | Unknown
  | A | B | C | D | E | F | G | H | I | J | K | L | M
  | N | O | P | Q | R | S | T | U | V | W | X | Y | Z
  | Num0 | Num1 | Num2 | Num3 | Num4 | Num5 | Num6 | Num7 | Num8 | Num9
  | F1 | F2 | F3 | F4 | F5 | F6 | F7 | F8 | F9 | F10 | F11 | F12
  | Escape
  | Space
  | Enter
  | Tab
  | Backspace
  | Delete
  | Insert
  | Home
  | End
  | PageUp
  | PageDown
  | Left
  | Right
  | Up
  | Down
  | LShift
  | RShift
  | LCtrl
  | RCtrl
  | LAlt
  | RAlt
  | LGui
  | RGui
  | KP_0 | KP_1 | KP_2 | KP_3 | KP_4
  | KP_5 | KP_6 | KP_7 | KP_8 | KP_9
  | KP_Enter
  | KP_Plus
  | KP_Minus
  | KP_Multiply
  | KP_Divide
  | KP_Period
  | CapsLock
  | ScrollLock
  | NumLock
  | PrintScreen
  | Pause
  | LControl
  | RControl
deriving DecidableEq, Repr

/-- The `mouse` member of `Event`. -/
structure MouseData where
  position : Point
  relative : Point
  button : MouseButton
  clicks : Int
  wheelX : Int
  wheelY : Int
deriving DecidableEq, Repr

/-- The `keyboard` member of `Event`. -/
structure KeyboardData where
  keycode : KeyCode
  repeat_ : Bool
  alt : Bool
  ctrl : Bool
  shift : Bool
  gui : Bool
deriving DecidableEq, Repr

/-- The internal tagged event handed to listeners. -/
structure Event where
  type : EventType
  mouse : MouseData
  keyboard : KeyboardData
deriving DecidableEq, Repr

/-- `Event event{}`: type `None`, every other member zero. -/
def Event.zero : Event :=
  { type := EventType.None
    mouse :=
      { position := ⟨0, 0⟩, relative := ⟨0, 0⟩, button := MouseButton.Left
        clicks := 0, wheelX := 0, wheelY := 0 }
    keyboard :=
      { keycode := KeyCode.Unknown, repeat_ := false, alt := false
        ctrl := false, shift := false, gui := false } }

/-! ## Platform constants (SDL2 `SDL_keycode.h`, `SDL_events.h`, `SDL_mouse.h`)

The values are those of the SDL2 headers the source is compiled against. -/

/-- `SDL_SCANCODE_TO_KEYCODE(X) = X | (1 << 30)`. -/
def SDL_SCANCODE_TO_KEYCODE (scancode : Int) : Int := scancode + 1073741824

def SDLK_a : Int := 97
def SDLK_b : Int := 98
def SDLK_c : Int := 99
def SDLK_d : Int := 100
def SDLK_e : Int := 101
def SDLK_f : Int := 102
def SDLK_g : Int := 103
def SDLK_h : Int := 104
def SDLK_i : Int := 105
def SDLK_j : Int := 106
def SDLK_k : Int := 107
def SDLK_l : Int := 108
def SDLK_m : Int := 109
def SDLK_n : Int := 110
def SDLK_o : Int := 111
def SDLK_p : Int := 112
def SDLK_q : Int := 113
def SDLK_r : Int := 114
def SDLK_s : Int := 115
def SDLK_t : Int := 116
def SDLK_u : Int := 117
def SDLK_v : Int := 118
def SDLK_w : Int := 119
def SDLK_x : Int := 120
def SDLK_y : Int := 121
def SDLK_z : Int := 122
def SDLK_0 : Int := 48
def SDLK_1 : Int := 49
def SDLK_2 : Int := 50
def SDLK_3 : Int := 51
def SDLK_4 : Int := 52
def SDLK_5 : Int := 53
def SDLK_6 : Int := 54
def SDLK_7 : Int := 55
def SDLK_8 : Int := 56
def SDLK_9 : Int := 57
def SDLK_RETURN : Int := 13
def SDLK_ESCAPE : Int := 27
def SDLK_BACKSPACE : Int := 8
def SDLK_TAB : Int := 9
def SDLK_SPACE : Int := 32
def SDLK_LSHIFT : Int := SDL_SCANCODE_TO_KEYCODE 225
def SDLK_RSHIFT : Int := SDL_SCANCODE_TO_KEYCODE 229
def SDLK_LCTRL : Int := SDL_SCANCODE_TO_KEYCODE 224
def SDLK_RCTRL : Int := SDL_SCANCODE_TO_KEYCODE 228
def SDLK_LALT : Int := SDL_SCANCODE_TO_KEYCODE 226
def SDLK_RALT : Int := SDL_SCANCODE_TO_KEYCODE 230
def SDLK_UP : Int := SDL_SCANCODE_TO_KEYCODE 82
def SDLK_DOWN : Int := SDL_SCANCODE_TO_KEYCODE 81
def SDLK_LEFT : Int := SDL_SCANCODE_TO_KEYCODE 80
def SDLK_RIGHT : Int := SDL_SCANCODE_TO_KEYCODE 79
def SDLK_F1 : Int := SDL_SCANCODE_TO_KEYCODE 58
def SDLK_F2 : Int := SDL_SCANCODE_TO_KEYCODE 59
def SDLK_F3 : Int := SDL_SCANCODE_TO_KEYCODE 60
def SDLK_F4 : Int := SDL_SCANCODE_TO_KEYCODE 61
def SDLK_F5 : Int := SDL_SCANCODE_TO_KEYCODE 62
def SDLK_F6 : Int := SDL_SCANCODE_TO_KEYCODE 63
def SDLK_F7 : Int := SDL_SCANCODE_TO_KEYCODE 64
def SDLK_F8 : Int := SDL_SCANCODE_TO_KEYCODE 65
def SDLK_F9 : Int := SDL_SCANCODE_TO_KEYCODE 66
def SDLK_F10 : Int := SDL_SCANCODE_TO_KEYCODE 67
def SDLK_F11 : Int := SDL_SCANCODE_TO_KEYCODE 68
def SDLK_F12 : Int := SDL_SCANCODE_TO_KEYCODE 69

def SDL_QUIT : Nat := 0x100
def SDL_WINDOWEVENT : Nat := 0x200
def SDL_KEYDOWN : Nat := 0x300
def SDL_KEYUP : Nat := 0x301
def SDL_TEXTINPUT : Nat := 0x303
def SDL_MOUSEMOTION : Nat := 0x400
def SDL_MOUSEBUTTONDOWN : Nat := 0x401
def SDL_MOUSEBUTTONUP : Nat := 0x402
def SDL_MOUSEWHEEL : Nat := 0x403

def SDL_BUTTON_LEFT : Nat := 1
def SDL_BUTTON_MIDDLE : Nat := 2
def SDL_BUTTON_RIGHT : Nat := 3

/-- The fields of the `SDL_Event` union that `PollEvents` reads. -/
structure SDL_Event where
  type : Nat
  key_sym : Int
  key_repeat : Nat
  button_button : Nat
  button_clicks : Nat
  button_x : Int
  button_y : Int
  motion_x : Int
  motion_y : Int
  motion_xrel : Int
  motion_yrel : Int
deriving DecidableEq, Repr

/-- A platform event of the given type with every payload field zero. -/
def SDL_Event.ofType (t : Nat) : SDL_Event :=
  { type := t, key_sym := 0, key_repeat := 0, button_button := 0
    button_clicks := 0, button_x := 0, button_y := 0
    motion_x := 0, motion_y := 0, motion_xrel := 0, motion_yrel := 0 }

/-- A synthetic key-down event for platform key code `k`. -/
def SDL_Event.keyDown (k : Int) : SDL_Event :=
  { SDL_Event.ofType SDL_KEYDOWN with key_sym := k }

/-- A synthetic key-up event for platform key code `k`. -/
def SDL_Event.keyUp (k : Int) : SDL_Event :=
  { SDL_Event.ofType SDL_KEYUP with key_sym := k }

/-! ## `src/libGfxEvent.cpp` -/

/-- `ConvertSDLKeyCode`: the `switch` of the source, case by case. -/
def ConvertSDLKeyCode (sdlKey : Int) : KeyCode :=
  if sdlKey = SDLK_a then KeyCode.A
  else if sdlKey = SDLK_b then KeyCode.B
  else if sdlKey = SDLK_c then KeyCode.C
  else if sdlKey = SDLK_d then KeyCode.D
  else if sdlKey = SDLK_e then KeyCode.E
  else if sdlKey = SDLK_f then KeyCode.F
  else if sdlKey = SDLK_g then KeyCode.G
  else if sdlKey = SDLK_h then KeyCode.H
  else if sdlKey = SDLK_i then KeyCode.I
  else if sdlKey = SDLK_j then KeyCode.J
  else if sdlKey = SDLK_k then KeyCode.K
  else if sdlKey = SDLK_l then KeyCode.L
  else if sdlKey = SDLK_m then KeyCode.M
  else if sdlKey = SDLK_n then KeyCode.N
  else if sdlKey = SDLK_o then KeyCode.O
  else if sdlKey = SDLK_p then KeyCode.P
  else if sdlKey = SDLK_q then KeyCode.Q
  else if sdlKey = SDLK_r then KeyCode.R
  else if sdlKey = SDLK_s then KeyCode.S
  else if sdlKey = SDLK_t then KeyCode.T
  else if sdlKey = SDLK_u then KeyCode.U
  else if sdlKey = SDLK_v then KeyCode.V
  else if sdlKey = SDLK_w then KeyCode.W
  else if sdlKey = SDLK_x then KeyCode.X
  else if sdlKey = SDLK_y then KeyCode.Y
  else if sdlKey = SDLK_z then KeyCode.Z
  else if sdlKey = SDLK_0 then KeyCode.Num0
  else if sdlKey = SDLK_1 then KeyCode.Num1
  else if sdlKey = SDLK_2 then KeyCode.Num2
  else if sdlKey = SDLK_3 then KeyCode.Num3
  else if sdlKey = SDLK_4 then KeyCode.Num4
  else if sdlKey = SDLK_5 then KeyCode.Num5
  else if sdlKey = SDLK_6 then KeyCode.Num6
  else if sdlKey = SDLK_7 then KeyCode.Num7
  else if sdlKey = SDLK_8 then KeyCode.Num8
  else if sdlKey = SDLK_9 then KeyCode.Num9
  else if sdlKey = SDLK_RETURN then KeyCode.Enter
  else if sdlKey = SDLK_ESCAPE then KeyCode.Escape
  else if sdlKey = SDLK_BACKSPACE then KeyCode.Backspace
  else if sdlKey = SDLK_TAB then KeyCode.Tab
  else if sdlKey = SDLK_SPACE then KeyCode.Space
  else if sdlKey = SDLK_LSHIFT then KeyCode.LShift
  else if sdlKey = SDLK_RSHIFT then KeyCode.RShift
  else if sdlKey = SDLK_LCTRL then KeyCode.LControl
  else if sdlKey = SDLK_RCTRL then KeyCode.RControl
  else if sdlKey = SDLK_LALT then KeyCode.LAlt
  else if sdlKey = SDLK_RALT then KeyCode.RAlt
  else if sdlKey = SDLK_UP then KeyCode.Up
  else if sdlKey = SDLK_DOWN then KeyCode.Down
  else if sdlKey = SDLK_LEFT then KeyCode.Left
  else if sdlKey = SDLK_RIGHT then KeyCode.Right
  else if sdlKey = SDLK_F1 then KeyCode.F1
  else if sdlKey = SDLK_F2 then KeyCode.F2
  else if sdlKey = SDLK_F3 then KeyCode.F3
  else if sdlKey = SDLK_F4 then KeyCode.F4
  else if sdlKey = SDLK_F5 then KeyCode.F5
  else if sdlKey = SDLK_F6 then KeyCode.F6
  else if sdlKey = SDLK_F7 then KeyCode.F7
  else if sdlKey = SDLK_F8 then KeyCode.F8
  else if sdlKey = SDLK_F9 then KeyCode.F9
  else if sdlKey = SDLK_F10 then KeyCode.F10
  else if sdlKey = SDLK_F11 then KeyCode.F11
  else if sdlKey = SDLK_F12 then KeyCode.F12
  else KeyCode.Unknown

/-- The case labels of `ConvertSDLKeyCode`: the platform key codes that have
an entry in the translation table. -/
def mappedKeys : List Int :=
  [SDLK_a, SDLK_b, SDLK_c, SDLK_d, SDLK_e, SDLK_f, SDLK_g, SDLK_h, SDLK_i,
   SDLK_j, SDLK_k, SDLK_l, SDLK_m, SDLK_n, SDLK_o, SDLK_p, SDLK_q, SDLK_r,
   SDLK_s, SDLK_t, SDLK_u, SDLK_v, SDLK_w, SDLK_x, SDLK_y, SDLK_z,
   SDLK_0, SDLK_1, SDLK_2, SDLK_3, SDLK_4, SDLK_5, SDLK_6, SDLK_7, SDLK_8,
   SDLK_9,
   SDLK_RETURN, SDLK_ESCAPE, SDLK_BACKSPACE, SDLK_TAB, SDLK_SPACE,
   SDLK_LSHIFT, SDLK_RSHIFT, SDLK_LCTRL, SDLK_RCTRL, SDLK_LALT, SDLK_RALT,
   SDLK_UP, SDLK_DOWN, SDLK_LEFT, SDLK_RIGHT,
   SDLK_F1, SDLK_F2, SDLK_F3, SDLK_F4, SDLK_F5, SDLK_F6, SDLK_F7, SDLK_F8,
   SDLK_F9, SDLK_F10, SDLK_F11, SDLK_F12]

/-- `ConvertSDLMouseButton`. -/
def ConvertSDLMouseButton (button : Nat) : MouseButton :=
  if button = SDL_BUTTON_LEFT then MouseButton.Left
  else if button = SDL_BUTTON_MIDDLE then MouseButton.Middle
  else if button = SDL_BUTTON_RIGHT then MouseButton.Right
  else MouseButton.Unknown

/-- The globals of `namespace internal`. -/
structure Dispatcher (κ : Type) where
  eventListeners : EventType → List κ
  keyStates : KeyCode → Bool
  mouseButtonStates : MouseButton → Bool
  currentMousePosition : Point
  textInputActive : Bool

/-- The dispatcher at program start: empty maps, text input off. -/
def Dispatcher.initial (κ : Type) : Dispatcher κ :=
  { eventListeners := fun _ => []
    keyStates := fun _ => false
    mouseButtonStates := fun _ => false
    currentMousePosition := ⟨0, 0⟩
    textInputActive := false }

/-- The `switch` of `PollEvents`: the translated event and the state update. -/
def translate {κ : Type} (d : Dispatcher κ) (sdlEvent : SDL_Event) :
    Event × Dispatcher κ :=
  let event := Event.zero
  if sdlEvent.type = SDL_MOUSEBUTTONDOWN then
    let button := ConvertSDLMouseButton sdlEvent.button_button
    let event := { event with
      type := EventType.MouseButtonDown
      mouse := { event.mouse with
        button := button
        position := ⟨sdlEvent.button_x, sdlEvent.button_y⟩
        clicks := sdlEvent.button_clicks } }
    (event, { d with
      mouseButtonStates := Function.update d.mouseButtonStates button true })
  else if sdlEvent.type = SDL_MOUSEBUTTONUP then
    let button := ConvertSDLMouseButton sdlEvent.button_button
    let event := { event with
      type := EventType.MouseButtonUp
      mouse := { event.mouse with
        button := button
        position := ⟨sdlEvent.button_x, sdlEvent.button_y⟩ } }
    (event, { d with
      mouseButtonStates := Function.update d.mouseButtonStates button false })
  else if sdlEvent.type = SDL_MOUSEMOTION then
    let position : Point := ⟨sdlEvent.motion_x, sdlEvent.motion_y⟩
    let event := { event with
      type := EventType.MouseMotion
      mouse := { event.mouse with
        position := position
        relative := ⟨sdlEvent.motion_xrel, sdlEvent.motion_yrel⟩ } }
    (event, { d with currentMousePosition := position })
  else if sdlEvent.type = SDL_KEYDOWN then
    let keycode := ConvertSDLKeyCode sdlEvent.key_sym
    let event := { event with
      type := EventType.KeyDown
      keyboard := { event.keyboard with
        keycode := keycode
        repeat_ := decide (sdlEvent.key_repeat ≠ 0) } }
    (event, { d with keyStates := Function.update d.keyStates keycode true })
  else if sdlEvent.type = SDL_KEYUP then
    let keycode := ConvertSDLKeyCode sdlEvent.key_sym
    let event := { event with
      type := EventType.KeyUp
      keyboard := { event.keyboard with keycode := keycode } }
    (event, { d with keyStates := Function.update d.keyStates keycode false })
  else
    (event, d)

/-- `PollEvents`: translation and state update, then the listeners of the
resulting type in stored order unless the type is `None`. Returns the new
dispatcher state and the list of invocations made, in order. -/
def PollEvents {κ : Type} (d : Dispatcher κ) (sdlEvent : SDL_Event) :
    Dispatcher κ × List (κ × Event) :=
  let (event, d1) := translate d sdlEvent
  if event.type ≠ EventType.None then
    (d1, (d1.eventListeners event.type).map fun callback => (callback, event))
  else
    (d1, [])

/-- `AddListener`: `eventListeners[type].push_back(callback)`. -/
def AddListener {κ : Type} (d : Dispatcher κ) (type : EventType) (callback : κ) :
    Dispatcher κ :=
  { d with
    eventListeners :=
      Function.update d.eventListeners type (d.eventListeners type ++ [callback]) }

/-- `IsKeyPressed`. -/
def IsKeyPressed {κ : Type} (d : Dispatcher κ) (key : KeyCode) : Bool :=
  d.keyStates key

/-- `IsMouseButtonPressed`. -/
def IsMouseButtonPressed {κ : Type} (d : Dispatcher κ) (button : MouseButton) : Bool :=
  d.mouseButtonStates button

/-- `GetMousePosition`. -/
def GetMousePosition {κ : Type} (d : Dispatcher κ) : Point :=
  d.currentMousePosition

/-- A sequence of `AddListener` calls, first to last. -/
def registerAll {κ : Type} (d : Dispatcher κ) : List (EventType × κ) → Dispatcher κ
  | [] => d
  | (t, f) :: rest => registerAll (AddListener d t f) rest

/-- The callbacks a registration sequence gives for type `t`, in order. -/
def registeredFor {κ : Type} (t : EventType) (regs : List (EventType × κ)) : List κ :=
  (regs.filter fun p => decide (p.1 = t)).map Prod.snd

end Event

/-! ## Single-precision arithmetic

A `float` is the rational it denotes. `Float32.round` is the rounding of IEEE
754 binary32 (24 significant bits, round to nearest, ties to even, gradual
underflow below `2^-126`); the exponent is not bounded above, so overflow to
infinity, and NaN, are not represented. Every `float` operation of
`DrawTexture` and of the atlas `DrawText` is the exact operation followed by
this rounding; a product and the sum it enters are rounded separately. -/

namespace Float32

/-- The integer nearest to `t`, the even one of the two when `t` lies halfway. -/
def nearestEven (t : ℚ) : Int :=
  let f := Int.floor t
  if t - f < 1 / 2 then f
  else if 1 / 2 < t - f then f + 1
  else if f % 2 = 0 then f else f + 1

/-- Rounding of a non-negative rational: with `e` the binary exponent of `a`
(at least -126), the nearest multiple of `2^(e-23)`. -/
def roundAbs (a : ℚ) : ℚ :=
  let e := max (Int.log 2 a) (-126)
  let q := (2 : ℚ) ^ (e - 23)
  nearestEven (a / q) * q

/-- Rounding to single precision; symmetric about zero. -/
def round (x : ℚ) : ℚ :=
  if x < 0 then -roundAbs (-x) else roundAbs x

/-- `a + b` on `float` operands. -/
def add (a b : ℚ) : ℚ := round (a + b)

/-- `a - b` on `float` operands. -/
def sub (a b : ℚ) : ℚ := round (a - b)

/-- `a * b` on `float` operands. -/
def mul (a b : ℚ) : ℚ := round (a * b)

/-- `a / b` on `float` operands. -/
def div (a b : ℚ) : ℚ := round (a / b)

/-- Conversion of an `int` to `float`. -/
def ofInt (n : Int) : ℚ := round n

end Float32

/-! ## Backend commands

Every call the source makes into SDL, OpenGL, GLEW or SDL_ttf, and every line
it writes to a log, as one constructor. OpenGL enumerants are kept by name. -/

/-- A 4×4 matrix in mathematical (row, column) layout. -/
abbrev Mat4 := Matrix (Fin 4) (Fin 4) ℚ

namespace glm

/-- `glm::translate(m, v)`: the last column becomes
`m[0]*v.x + m[1]*v.y + m[2]*v.z + m[3]`, i.e. `m` times the translation. -/
def translate (m : Mat4) (x y z : ℚ) : Mat4 :=
  m * !![1, 0, 0, x; 0, 1, 0, y; 0, 0, 1, z; 0, 0, 0, 1]

/-- `glm::scale(m, v)`: the first three columns are scaled, i.e. `m` times the
scaling. -/
def scale (m : Mat4) (x y z : ℚ) : Mat4 :=
  m * !![x, 0, 0, 0; 0, y, 0, 0; 0, 0, z, 0; 0, 0, 0, 1]

/-- `glm::ortho(left, right, bottom, top)`. -/
def ortho (left right bottom top : ℚ) : Mat4 :=
  !![2 / (right - left), 0, 0, -(right + left) / (right - left);
     0, 2 / (top - bottom), 0, -(top + bottom) / (top - bottom);
     0, 0, -1, 0;
     0, 0, 0, 1]

/-- `glm::rotate(m, angle, vec3(0, 0, 1))` in exact arithmetic, given the
cosine `c` and the sine `s` of the angle: `m` times the rotation with the
columns `(c, s, 0)`, `(-s, c, 0)`, `(0, 0, 1)`. -/
def rotateZ (m : Mat4) (c s : ℚ) : Mat4 :=
  m * !![c, -s, 0, 0; s, c, 0, 0; 0, 0, 1, 0; 0, 0, 0, 1]

end glm

/-- The `float` cosine and sine of the C library, as functions of the angle in
radians. -/
structure Libm where
  cos : ℚ → ℚ
  sin : ℚ → ℚ

namespace glm
namespace float32

/-- `glm::translate(m, v)` on `float`: the last column becomes
`m[0] * v[0] + m[1] * v[1] + m[2] * v[2] + m[3]`, each product and each sum
(left to right) rounded; the other columns are those of `m`. -/
def translate (m : Mat4) (x y z : ℚ) : Mat4 :=
  Matrix.of fun i j =>
    if j = 3 then
      Float32.add
        (Float32.add (Float32.add (Float32.mul (m i 0) x) (Float32.mul (m i 1) y))
          (Float32.mul (m i 2) z))
        (m i 3)
    else m i j

/-- `glm::scale(m, v)` on `float`: column `k < 3` is `m[k] * v[k]`, the last
column is that of `m`. -/
def scale (m : Mat4) (x y z : ℚ) : Mat4 :=
  Matrix.of fun i j =>
    if j = 0 then Float32.mul (m i 0) x
    else if j = 1 then Float32.mul (m i 1) y
    else if j = 2 then Float32.mul (m i 2) z
    else m i j

/-- `glm::radians(degrees)` on `float`: the product with the `float` nearest
to the constant 0.01745329251994329576923690768489. -/
def radians (degrees : ℚ) : ℚ :=
  Float32.mul degrees
    (Float32.round (1745329251994329576923690768489 / 100000000000000000000000000000000))

/-- `glm::rotate(m, angle, vec3(0, 0, 1))` on `float`. The axis is already of
unit length, so `normalize` returns it; `temp = (1 - c) * axis`; `Rotate` is
filled entry by entry as glm does, and column `k < 3` of the result is
`m[0] * Rotate[k][0] + m[1] * Rotate[k][1] + m[2] * Rotate[k][2]`; the last
column is that of `m`. -/
def rotateZ (lib : Libm) (m : Mat4) (angle : ℚ) : Mat4 :=
  let c := lib.cos angle
  let s := lib.sin angle
  let axis : Fin 3 → ℚ := ![0, 0, 1]
  let temp : Fin 3 → ℚ := fun k => Float32.mul (Float32.sub 1 c) (axis k)
  let Rotate : Fin 3 → Fin 3 → ℚ :=
    ![![Float32.add c (Float32.mul (temp 0) (axis 0)),
        Float32.add (Float32.mul (temp 0) (axis 1)) (Float32.mul s (axis 2)),
        Float32.sub (Float32.mul (temp 0) (axis 2)) (Float32.mul s (axis 1))],
      ![Float32.sub (Float32.mul (temp 1) (axis 0)) (Float32.mul s (axis 2)),
        Float32.add c (Float32.mul (temp 1) (axis 1)),
        Float32.add (Float32.mul (temp 1) (axis 2)) (Float32.mul s (axis 0))],
      ![Float32.add (Float32.mul (temp 2) (axis 0)) (Float32.mul s (axis 1)),
        Float32.sub (Float32.mul (temp 2) (axis 1)) (Float32.mul s (axis 0)),
        Float32.add c (Float32.mul (temp 2) (axis 2))]]
  Matrix.of fun i j =>
    let column : Fin 3 → ℚ := fun k =>
      Float32.add
        (Float32.add (Float32.mul (m i 0) (Rotate k 0)) (Float32.mul (m i 1) (Rotate k 1)))
        (Float32.mul (m i 2) (Rotate k 2))
    ![column 0, column 1, column 2, m i 3] j

end float32
end glm

inductive Cmd where
  | SDL_GL_CreateContext (window : Nat)
  | SDL_GL_DeleteContext (context : Nat)
  | SDL_GL_SwapWindow (window : Nat)
  | SDL_GetWindowSize (window : Nat)
  | SDL_Log (msg : String)
  | cerr (msg : String)
  | glewInit
  | glEnable (cap : String)
  | glDisable (cap : String)
  | glBlendFunc (sfactor dfactor : String)
  | glGetString (name : String)
  | glGenVertexArrays (name : Nat)
  | glGenBuffers (name : Nat)
  | glBindVertexArray (name : Nat)
  | glBindBuffer (target : String) (name : Nat)
  | glBufferData (target : String) (data : List ℚ) (usage : String)
  | glVertexAttribPointer (index size stride offset : Nat)
  | glEnableVertexAttribArray (index : Nat)
  | glCreateShader (kind : String) (name : Nat)
  | glShaderSource (shader : Nat) (source : String)
  | glCompileShader (shader : Nat)
  | glGetShaderiv (shader : Nat) (pname : String)
  | glGetShaderInfoLog (shader : Nat)
  | glCreateProgram (name : Nat)
  | glAttachShader (program shader : Nat)
  | glLinkProgram (program : Nat)
  | glGetProgramiv (program : Nat) (pname : String)
  | glGetProgramInfoLog (program : Nat)
  | glDeleteShader (shader : Nat)
  | glUseProgram (program : Nat)
  | glViewport (x y width height : Int)
  | glUniformMatrix4fv (program : Nat) (uniform : String) (value : Mat4)
  | glUniform1i (program : Nat) (uniform : String) (value : Int)
  | glUniform4f (program : Nat) (uniform : String) (x y z w : ℚ)
  | glClearColor (r g b a : ℚ)
  | glClear (mask : String)
  | glDrawArrays (mode : String) (first count : Nat)
  | glGenTextures (name : Nat)
  | glBindTexture (target : String) (name : Nat)
  | glTexParameteri (target pname param : String)
  | glTexImage2D (target : String) (internalformat : String) (width height : Int)
  | glGenerateMipmap (target : String)
  | glGetError
  | glDeleteTextures (name : Nat)
  | TTF_RenderText_Blended (font : Nat) (text : String) (color : Color)
  | SDL_ConvertSurfaceFormat (format : String)
  | SDL_FreeSurface
  | glDeleteVertexArrays (name : Nat)
  | glDeleteBuffers (name : Nat)
  | glActiveTexture (unit : String)
  | glPixelStorei (pname : String) (param : Int)
  | glTexImage2D_pixels (target : String) (internalformat : String) (width height : Int)
      (pixels : List Nat)
  | FT_Init_FreeType
  | FT_New_Face (path : String)
  | FT_Set_Pixel_Sizes (size : Int)
  | FT_Load_Char (code : Nat)
  | FT_Done_Face
  | FT_Done_FreeType
  | glLineWidth (width : ℚ)

/-- The texture names in use after the backend has executed `cmds`, starting
from the names in `live`: `glGenTextures` reserves a name, `glDeleteTextures`
frees it (and silently ignores a name that is not in use). -/
def liveTextures (live : List Nat) : List Cmd → List Nat
  | [] => live
  | Cmd.glGenTextures n :: rest => liveTextures (n :: live) rest
  | Cmd.glDeleteTextures n :: rest => liveTextures (live.filter fun m => m ≠ n) rest
  | _ :: rest => liveTextures live rest

/-- The matrix a command writes to the uniform `projection` of the shader
program `program`, if it is such a write. -/
def Cmd.projectionUpload (program : Nat) : Cmd → Option Mat4
  | Cmd.glUniformMatrix4fv p uniform value =>
    if p = program ∧ uniform = "projection" then some value else none
  | _ => none

/-- All writes to the uniform `projection` of `program` among `cmds`, in
order. -/
def projectionUploads (program : Nat) (cmds : List Cmd) : List Mat4 :=
  cmds.filterMap (Cmd.projectionUpload program)

/-- The value the uniform `projection` of `program` holds after the backend has
executed `cmds`, `current` being its value before: the last write, if any. -/
def shaderProjection (program : Nat) (current : Option Mat4) (cmds : List Cmd) :
    Option Mat4 :=
  match (projectionUploads program cmds).getLast? with
  | some value => some value
  | none => current

def GL_NO_ERROR : Nat := 0
def GL_INVALID_VALUE : Nat := 0x0501
def GL_OUT_OF_MEMORY : Nat := 0x0505
def GLEW_OK : Nat := 0

/-! ## Resources (`include/libGfx.h`) -/

/-- `struct Texture`. -/
structure Texture where
  id : Nat
  width : Int
  height : Int
deriving DecidableEq, Repr

/-- `Texture::~Texture`: `if (id) glDeleteTextures(1, &id)`. -/
def Texture.destroy (t : Texture) : List Cmd :=
  if t.id ≠ 0 then [Cmd.glDeleteTextures t.id] else []

/-- `Font::Glyph`. -/
structure Glyph where
  bitmap_left : Int
  bitmap_top : Int
  advance_x : Int
  texture : Nat
  w : Int
  h : Int
deriving DecidableEq, Repr

/-- `class Font`: the pixel size and the glyph map, as the list of its
entries. -/
structure Font where
  size : Int
  glyphs : List (Nat × Glyph)
deriving DecidableEq, Repr

structure FontKey where
  name : String
  size : Int
deriving DecidableEq, Repr

/-! ## Renderer (`src/libGfx.cpp`) -/

/-- The process-wide state of `libGfx.cpp`: the globals of the anonymous
namespace together with `s_projection`, `lineVAO` and `lineVBO`. -/
structure Renderer where
  s_window : Nat
  s_glContext : Nat
  s_renderThreadId : Option Nat
  s_glewInitialized : Bool
  s_textureCache : List (String × Texture)
  s_fontCache : List (FontKey × Font)
  quadVAO : Nat
  quadVBO : Nat
  shaderProgram : Nat
  s_projection : Mat4
  lineVAO : Nat
  lineVBO : Nat

/-- The globals as initialised at program start. -/
def Renderer.initial : Renderer :=
  { s_window := 0
    s_glContext := 0
    s_renderThreadId := none
    s_glewInitialized := false
    s_textureCache := []
    s_fontCache := []
    quadVAO := 0
    quadVBO := 0
    shaderProgram := 0
    s_projection := 0
    lineVAO := 0
    lineVBO := 0 }

/-- `IsRenderThread`, for a call made on thread `caller`. -/
def IsRenderThread (st : Renderer) (caller : Nat) : Bool :=
  decide (some caller = st.s_renderThreadId)

/-- `VerifyRenderThread`: throws `std::runtime_error` off the render thread. -/
def VerifyRenderThread (st : Renderer) (caller : Nat) : Except String Unit :=
  if ¬ IsRenderThread st caller then
    Except.error "GFX operation called from non-render thread"
  else
    Except.ok ()

/-- What the platform answers during one run of `Renderer::Init`. -/
structure InitEnv where
  context : Nat
  glewErr : Nat
  GLEW_VERSION_2_1 : Bool
  lineVAO : Nat
  lineVBO : Nat
  quadVAO : Nat
  quadVBO : Nat
  vertexShader : Nat
  fragmentShader : Nat
  vertexCompiled : Bool
  fragmentCompiled : Bool
  program : Nat
  linked : Bool
  width : Int
  height : Int
deriving DecidableEq, Repr

/-- The quad vertex array of `Init`: position (3) and texture coordinate (2). -/
def quadVertices : List ℚ :=
  [0, 0, 0, 0, 0,
   1, 0, 0, 1, 0,
   1, 1, 0, 1, 1,
   0, 1, 0, 0, 1]

/-- The part of `Renderer::Init` from the geometry buffers to the projection
upload (lines 84 to 217): it has no failing exit. -/
def Init.pipeline (st : Renderer) (env : InitEnv) (window : Nat) :
    Renderer × List Cmd :=
  let st := { st with lineVAO := env.lineVAO, lineVBO := env.lineVBO }
  let line :=
    [ Cmd.glGenVertexArrays env.lineVAO, Cmd.glGenBuffers env.lineVBO,
      Cmd.glBindVertexArray st.lineVAO, Cmd.glBindBuffer "GL_ARRAY_BUFFER" st.lineVBO,
      Cmd.glVertexAttribPointer 0 2 0 0, Cmd.glEnableVertexAttribArray 0,
      Cmd.glBindVertexArray 0 ]
  let st := { st with quadVAO := env.quadVAO, quadVBO := env.quadVBO }
  let quad :=
    [ Cmd.glGenVertexArrays env.quadVAO, Cmd.glGenBuffers env.quadVBO,
      Cmd.glBindVertexArray st.quadVAO, Cmd.glBindBuffer "GL_ARRAY_BUFFER" st.quadVBO,
      Cmd.glBufferData "GL_ARRAY_BUFFER" quadVertices "GL_STATIC_DRAW",
      Cmd.glVertexAttribPointer 0 3 20 0, Cmd.glEnableVertexAttribArray 0,
      Cmd.glVertexAttribPointer 1 2 20 12, Cmd.glEnableVertexAttribArray 1,
      Cmd.glBindVertexArray 0 ]
  let vertexShader := env.vertexShader
  let fragmentShader := env.fragmentShader
  let compile :=
    [ Cmd.glCreateShader "GL_VERTEX_SHADER" vertexShader,
      Cmd.glShaderSource vertexShader "vertexShaderSource",
      Cmd.glCompileShader vertexShader,
      Cmd.glCreateShader "GL_FRAGMENT_SHADER" fragmentShader,
      Cmd.glShaderSource fragmentShader "fragmentShaderSource",
      Cmd.glCompileShader fragmentShader ]
  let checkVertex :=
    Cmd.glGetShaderiv vertexShader "GL_COMPILE_STATUS" ::
      (if ¬ env.vertexCompiled then
        [Cmd.glGetShaderInfoLog vertexShader, Cmd.SDL_Log "Vertex shader compile error"]
       else [])
  let checkFragment :=
    Cmd.glGetShaderiv fragmentShader "GL_COMPILE_STATUS" ::
      (if ¬ env.fragmentCompiled then
        [Cmd.glGetShaderInfoLog fragmentShader, Cmd.SDL_Log "Fragment shader compile error"]
       else [])
  let st := { st with shaderProgram := env.program }
  let link :=
    [ Cmd.glCreateProgram env.program,
      Cmd.glAttachShader st.shaderProgram vertexShader,
      Cmd.glAttachShader st.shaderProgram fragmentShader,
      Cmd.glLinkProgram st.shaderProgram ]
  let checkLink :=
    Cmd.glGetProgramiv st.shaderProgram "GL_LINK_STATUS" ::
      (if ¬ env.linked then
        [Cmd.glGetProgramInfoLog st.shaderProgram, Cmd.SDL_Log "Shader program link error"]
       else [])
  let cleanup := [Cmd.glDeleteShader vertexShader, Cmd.glDeleteShader fragmentShader]
  let st := { st with s_projection := glm.ortho 0 env.width env.height 0 }
  let projection :=
    [ Cmd.glUseProgram st.shaderProgram, Cmd.SDL_GetWindowSize window,
      Cmd.glViewport 0 0 env.width env.height,
      Cmd.glUniformMatrix4fv st.shaderProgram "projection" st.s_projection ]
  (st, line ++ quad ++ compile ++ checkVertex ++ checkFragment ++ link ++ checkLink
        ++ cleanup ++ projection)

/-- `Renderer::Init(window)` called on thread `thread`: the returned flag, the
globals afterwards and the commands issued. -/
def Init (st : Renderer) (env : InitEnv) (thread : Nat) (window : Nat) :
    Bool × Renderer × List Cmd :=
  if st.s_window ≠ 0 then (true, st, [])
  else
    let st := { st with s_window := window, s_renderThreadId := some thread }
    let st := { st with s_glContext := env.context }
    let cmds := [Cmd.SDL_GL_CreateContext window]
    if st.s_glContext = 0 then
      (false, st, cmds ++ [Cmd.SDL_Log "Failed to create GL context"])
    else
      let cmds := cmds ++ [Cmd.glewInit]
      if env.glewErr ≠ GLEW_OK then
        (false, st, cmds ++ [Cmd.SDL_Log "GLEW init failed"])
      else
        let st := { st with s_glewInitialized := true }
        let cmds := cmds ++
          [ Cmd.glEnable "GL_BLEND",
            Cmd.glBlendFunc "GL_SRC_ALPHA" "GL_ONE_MINUS_SRC_ALPHA",
            Cmd.glDisable "GL_DEPTH_TEST" ]
        if ¬ env.GLEW_VERSION_2_1 then
          (false, st, cmds ++ [Cmd.SDL_Log "OpenGL 2.1+ required"])
        else
          let cmds := cmds ++
            [ Cmd.glGetString "GL_RENDERER", Cmd.SDL_Log "Renderer",
              Cmd.glGetString "GL_VERSION", Cmd.SDL_Log "OpenGL" ]
          let (st, rest) := Init.pipeline st env window
          (true, st, cmds ++ rest)

/-- `Renderer::Clear(bg)` called on thread `caller`. -/
def Clear (st : Renderer) (caller : Nat) (bg : Color) : Except String (List Cmd) := do
  VerifyRenderThread st caller
  pure [ Cmd.glClearColor (bg.r / 255) (bg.g / 255) (bg.b / 255) (bg.a / 255),
         Cmd.glClear "GL_COLOR_BUFFER_BIT" ]

/-- `Renderer::Present()` called on thread `caller`. -/
def Present (st : Renderer) (caller : Nat) : Except String (List Cmd) := do
  VerifyRenderThread st caller
  pure [Cmd.SDL_GL_SwapWindow st.s_window]

/-- `Renderer::DrawRect(rect, fill)` called on thread `caller`; the source does
not consult the calling thread. -/
def DrawRect (st : Renderer) (caller : Nat) (rect : Rect) (fill : Color) :
    Except String (List Cmd) :=
  let _ := caller
  let model := glm.translate 1 rect.x rect.y 0
  let model := glm.scale model rect.w rect.h 1
  pure [ Cmd.glUniformMatrix4fv st.shaderProgram "model" model,
         Cmd.glUniform1i st.shaderProgram "useTexture" 0,
         Cmd.glUniform4f st.shaderProgram "color"
           (fill.r / 255) (fill.g / 255) (fill.b / 255) (fill.a / 255),
         Cmd.glBindVertexArray st.quadVAO,
         Cmd.glDrawArrays "GL_TRIANGLE_FAN" 0 4 ]

/-- `Renderer::DrawLine(p1, p2, color, width)`. -/
def DrawLine (st : Renderer) (p1 p2 : Point) (color : Color) (width : ℚ) : List Cmd :=
  let points : List ℚ := [p1.x, p1.y, p2.x, p2.y]
  let model : Mat4 := 1
  [ Cmd.glUseProgram st.shaderProgram,
    Cmd.glBindBuffer "GL_ARRAY_BUFFER" st.lineVBO,
    Cmd.glBufferData "GL_ARRAY_BUFFER" points "GL_STREAM_DRAW",
    Cmd.glBindVertexArray st.lineVAO,
    Cmd.glEnableVertexAttribArray 0,
    Cmd.glUniformMatrix4fv st.shaderProgram "model" model,
    Cmd.glUniform1i st.shaderProgram "useTexture" 0,
    Cmd.glUniform4f st.shaderProgram "color"
      (color.r / 255) (color.g / 255) (color.b / 255) (color.a / 255),
    Cmd.glLineWidth width,
    Cmd.glDrawArrays "GL_LINES" 0 2 ]

/-- `Renderer::HandleWindowResize(width, height)` (`include/libGfx.h`). -/
def HandleWindowResize (st : Renderer) (width height : Int) : Renderer × List Cmd :=
  ({ st with s_projection := glm.ortho 0 width height 0 },
    [Cmd.glViewport 0 0 width height])

/-- `Renderer::CreateTexture(width, height)`; `textureID` is the name
`glGenTextures` hands out and `err` the value `glGetError` returns. -/
def CreateTexture (textureID : Nat) (err : Nat) (width height : Int) :
    Option Texture × List Cmd :=
  if width ≤ 0 ∨ height ≤ 0 then
    (none, [Cmd.cerr "Invalid texture dimensions"])
  else
    let cmds :=
      [ Cmd.glGenTextures textureID, Cmd.glBindTexture "GL_TEXTURE_2D" textureID,
        Cmd.glTexParameteri "GL_TEXTURE_2D" "GL_TEXTURE_WRAP_S" "GL_CLAMP_TO_EDGE",
        Cmd.glTexParameteri "GL_TEXTURE_2D" "GL_TEXTURE_WRAP_T" "GL_CLAMP_TO_EDGE",
        Cmd.glTexParameteri "GL_TEXTURE_2D" "GL_TEXTURE_MIN_FILTER" "GL_LINEAR",
        Cmd.glTexParameteri "GL_TEXTURE_2D" "GL_TEXTURE_MAG_FILTER" "GL_LINEAR",
        Cmd.glTexImage2D "GL_TEXTURE_2D" "GL_RGBA8" width height,
        Cmd.glGetError ]
    if err ≠ GL_NO_ERROR then
      (none, cmds ++ [Cmd.cerr "Failed to create texture", Cmd.glDeleteTextures textureID])
    else
      (some { id := textureID, width := width, height := height }, cmds)

/-- `Renderer::ReleaseTexture(tex)`: the guarded `glDeleteTextures`, then
`delete tex`, which runs `Texture::~Texture`. -/
def ReleaseTexture (tex : Option Texture) : List Cmd :=
  match tex with
  | none => []
  | some t => (if t.id ≠ 0 then [Cmd.glDeleteTextures t.id] else []) ++ t.destroy

/-- `Renderer::Shutdown()`: the globals afterwards and the commands issued. -/
def Shutdown (st : Renderer) : Renderer × List Cmd :=
  let textures := st.s_textureCache.flatMap fun entry =>
    Cmd.glDeleteTextures entry.2.id :: entry.2.destroy
  let st := { st with s_textureCache := [] }
  let st := { st with s_fontCache := [] }
  let context :=
    if st.s_glContext ≠ 0 then [Cmd.SDL_GL_DeleteContext st.s_glContext] else []
  let st := if st.s_glContext ≠ 0 then { st with s_glContext := 0 } else st
  let buffers := [Cmd.glDeleteVertexArrays st.quadVAO, Cmd.glDeleteBuffers st.quadVBO]
  let st := { st with s_window := 0, s_glewInitialized := false }
  (st, textures ++ context ++ buffers)

/-- The model matrix `Renderer::DrawTexture(GLuint, Rect, float)` builds, in
`float` arithmetic: `dest.w / 2` and `-dest.w / 2` are rounded quotients and
the glm calls are the single-precision ones. -/
def DrawTexture.model (lib : Libm) (dest : Rect) (rotation : ℚ) : Mat4 :=
  let model : Mat4 := 1
  let model := glm.float32.translate model dest.x dest.y 0
  let model :=
    if rotation ≠ 0 then
      let model :=
        glm.float32.translate model (Float32.div dest.w 2) (Float32.div dest.h 2) 0
      let model := glm.float32.rotateZ lib model (glm.float32.radians rotation)
      glm.float32.translate model (Float32.div (-dest.w) 2) (Float32.div (-dest.h) 2) 0
    else model
  glm.float32.scale model dest.w dest.h 1

/-- `Renderer::DrawTexture(GLuint tex, Rect dest, float rotation)`. -/
def DrawTexture (lib : Libm) (st : Renderer) (tex : Nat) (dest : Rect) (rotation : ℚ) :
    List Cmd :=
  if tex = 0 then [Cmd.cerr "Invalid texture ID!"]
  else
    [ Cmd.glUseProgram st.shaderProgram,
      Cmd.glBindVertexArray st.quadVAO,
      Cmd.glEnable "GL_BLEND",
      Cmd.glBlendFunc "GL_SRC_ALPHA" "GL_ONE_MINUS_SRC_ALPHA",
      Cmd.glUniformMatrix4fv st.shaderProgram "model" (DrawTexture.model lib dest rotation),
      Cmd.glUniform1i st.shaderProgram "useTexture" 1,
      Cmd.glUniform4f st.shaderProgram "color" 1 1 1 1,
      Cmd.glActiveTexture "GL_TEXTURE0",
      Cmd.glBindTexture "GL_TEXTURE_2D" tex,
      Cmd.glUniform1i st.shaderProgram "texture1" 0,
      Cmd.glUniform4f st.shaderProgram "uvRect" 0 0 1 1,
      Cmd.glDrawArrays "GL_TRIANGLE_FAN" 0 4,
      Cmd.glDisable "GL_BLEND" ]

/-- The outcome of reading a member through a null pointer. -/
def nullDereference : String := "null pointer dereference"

/-- `Renderer::DrawTexture(Texture* tex, Rect dest, float rotation)`: reads
`tex->id` and forwards. -/
def DrawTexture.ptr (lib : Libm) (st : Renderer) (tex : Option Texture) (dest : Rect)
    (rotation : ℚ) : Except String (List Cmd) :=
  match tex with
  | none => Except.error nullDereference
  | some t => Except.ok (DrawTexture lib st t.id dest rotation)

/-! ## String-cache font (`src/FontA.cpp`) -/

/-- `class FontA`: the SDL_ttf handle, the comparison string and the single
cache slot. -/
structure FontA where
  font_ : Nat
  TextCache : String
  TextureCached : Option Texture
deriving DecidableEq, Repr

/-- `FontA::Load`; `handle` is what `TTF_OpenFont` returns. `new FontA()`
value-initialises the object: empty `TextCache`, null `TextureCached`. -/
def FontA.Load (handle : Nat) : Option FontA :=
  if handle = 0 then none
  else some { font_ := handle, TextCache := "", TextureCached := none }

/-- The dimensions of an `SDL_Surface`. -/
structure Surface where
  w : Int
  h : Int
deriving DecidableEq, Repr

/-- What SDL_ttf, SDL and OpenGL answer during one run of
`FontA::GetTextTexture`. -/
structure TextEnv where
  surface : Option Surface
  converted : Option Surface
  textureID : Nat
  err : Nat
deriving DecidableEq, Repr

/-- `FontA::GetTextTexture(font, text, color)`: the returned pointer, the font
object afterwards and the commands issued. -/
def FontA.GetTextTexture (env : TextEnv) (font : Option FontA) (text : Option String)
    (color : Color) : Option Texture × Option FontA × List Cmd :=
  match font, text with
  | none, _ => (none, font, [])
  | some _, none => (none, font, [])
  | some f, some text =>
    if f.TextCache = text then (f.TextureCached, font, [])
    else
      let cmds := [Cmd.TTF_RenderText_Blended f.font_ text color]
      match env.surface with
      | none => (none, font, cmds ++ [Cmd.cerr "TTF_RenderText_Blended Failed"])
      | some _ =>
        let cmds := cmds ++
          [Cmd.SDL_ConvertSurfaceFormat "SDL_PIXELFORMAT_RGBA32", Cmd.SDL_FreeSurface]
        match env.converted with
        | none => (none, font, cmds ++ [Cmd.cerr "Failed to convert image"])
        | some converted =>
          let textureID := env.textureID
          let cmds := cmds ++
            [ Cmd.glGenTextures textureID, Cmd.glBindTexture "GL_TEXTURE_2D" textureID,
              Cmd.glTexParameteri "GL_TEXTURE_2D" "GL_TEXTURE_WRAP_S" "GL_REPEAT",
              Cmd.glTexParameteri "GL_TEXTURE_2D" "GL_TEXTURE_WRAP_T" "GL_REPEAT",
              Cmd.glTexParameteri "GL_TEXTURE_2D" "GL_TEXTURE_MIN_FILTER" "GL_LINEAR",
              Cmd.glTexParameteri "GL_TEXTURE_2D" "GL_TEXTURE_MAG_FILTER" "GL_LINEAR",
              Cmd.glTexImage2D "GL_TEXTURE_2D" "GL_RGBA8" converted.w converted.h,
              Cmd.glGenerateMipmap "GL_TEXTURE_2D",
              Cmd.SDL_FreeSurface,
              Cmd.glGetError ]
          if env.err ≠ GL_NO_ERROR then
            (none, font,
              cmds ++ [Cmd.cerr "Failed to upload texture", Cmd.glDeleteTextures textureID])
          else
            let release :=
              match f.TextureCached with
              | some old => Cmd.glDeleteTextures old.id :: old.destroy
              | none => []
            let created : Texture :=
              { id := textureID, width := converted.w, height := converted.h }
            (some created, some { f with TextureCached := some created }, cmds ++ release)

/-- `Renderer::DrawText(text, pos, FontA* font, color, scale, rotation)`: the
font object afterwards and the commands issued, or the fault of reading
`texture->id` through a null `texture`. -/
def DrawText.fontA (lib : Libm) (st : Renderer) (env : TextEnv) (text : String)
    (pos : Point) (font : Option FontA) (color : Color) (scale rotation : ℚ) :
    Except String (Option FontA × List Cmd) :=
  match FontA.GetTextTexture env font (some text) color with
  | (none, _, _) => Except.error nullDereference
  | (some texture, font, cmds) =>
    if texture.id = 0 then Except.ok (font, cmds)
    else
      let dest : Rect := ⟨pos.x, pos.y, texture.width * scale, texture.height * scale⟩
      match DrawTexture.ptr lib st (some texture) dest rotation with
      | Except.error e => Except.error e
      | Except.ok draw => Except.ok (font, cmds ++ draw)

/-! ## Atlas font (`Font` in `src/libGfx.cpp`) -/

/-- What `FT_Load_Char(face, i, FT_LOAD_RENDER)` leaves in `face->glyph`: the
coverage bitmap and the metrics. -/
structure GlyphSlot where
  width : Nat
  rows : Nat
  buffer : List Nat
  bitmap_left : Int
  bitmap_top : Int
  advance_x : Int

/-- What FreeType and OpenGL answer during one run of `Font::Load`:
the error flags of the three set-up calls, the result of `FT_Load_Char` per
code point (`none` when it reports an error) and the texture name
`glGenTextures` hands out for the glyph of a code point. -/
structure FontEnv where
  initError : Bool
  faceError : Bool
  sizeError : Bool
  loadChar : Nat → Option GlyphSlot
  texture : Nat → Nat

/-- The conversion loop of `Font::Load` (lines 527 to 538): a zero-filled
vector of `width * height * 4` bytes, then for `y < height`, `x < width` the
four bytes of pixel `y * width + x` are written. -/
def Font.Load.rgbaBuffer (width height : Nat) (grayBuffer : List Nat) (color : Color) :
    List Nat :=
  (List.range height).foldl
    (fun rgbaBuffer y =>
      (List.range width).foldl
        (fun rgbaBuffer x =>
          let i := y * width + x
          let alpha := grayBuffer.getD i 0
          (((rgbaBuffer.set (i * 4 + 0) color.r).set (i * 4 + 1) color.g).set
            (i * 4 + 2) color.b).set (i * 4 + 3) alpha)
        rgbaBuffer)
    (List.replicate (width * height * 4) 0)

/-- `glyphs[codepoint] = glyph` on the map held as a list of entries. -/
def Font.setGlyph (font : Font) (codepoint : Nat) (glyph : Glyph) : Font :=
  { font with
    glyphs := (codepoint, glyph) :: font.glyphs.filter fun entry => entry.1 ≠ codepoint }

/-- The record `Font::Load` stores for code point `i` (lines 566 to 573). -/
def Font.Load.glyph (env : FontEnv) (i : Nat) (slot : GlyphSlot) : Glyph :=
  { bitmap_left := slot.bitmap_left
    bitmap_top := slot.bitmap_top
    advance_x := slot.advance_x >>> 6
    texture := env.texture i
    w := slot.width
    h := slot.rows }

/-- One iteration of the loop over `i` in `Font::Load`. -/
def Font.Load.step (env : FontEnv) (color : Color) (acc : Font × List Cmd) (i : Nat) :
    Font × List Cmd :=
  match env.loadChar i with
  | none =>
    (acc.1, acc.2 ++ [Cmd.FT_Load_Char i, Cmd.cerr "INFO :Unable to load character"])
  | some slot =>
    let width := slot.width
    let height := slot.rows
    let rgbaBuffer := Font.Load.rgbaBuffer width height slot.buffer color
    let texture := env.texture i
    let cmds :=
      [ Cmd.FT_Load_Char i,
        Cmd.glGenTextures texture, Cmd.glBindTexture "GL_TEXTURE_2D" texture,
        Cmd.glPixelStorei "GL_UNPACK_ALIGNMENT" 1,
        Cmd.glTexImage2D_pixels "GL_TEXTURE_2D" "GL_RGBA" width height rgbaBuffer,
        Cmd.glTexParameteri "GL_TEXTURE_2D" "GL_TEXTURE_WRAP_S" "GL_CLAMP_TO_EDGE",
        Cmd.glTexParameteri "GL_TEXTURE_2D" "GL_TEXTURE_WRAP_T" "GL_CLAMP_TO_EDGE",
        Cmd.glTexParameteri "GL_TEXTURE_2D" "GL_TEXTURE_MIN_FILTER" "GL_LINEAR",
        Cmd.glTexParameteri "GL_TEXTURE_2D" "GL_TEXTURE_MAG_FILTER" "GL_LINEAR",
        Cmd.glGenerateMipmap "GL_TEXTURE_2D" ]
    (acc.1.setGlyph i (Font.Load.glyph env i slot), acc.2 ++ cmds)

/-- `Font::Load(path, size, color)`: the returned pointer and the commands
issued. -/
def Font.Load (env : FontEnv) (path : String) (size : Int) (color : Color) :
    Option Font × List Cmd :=
  if env.initError then
    (none, [Cmd.FT_Init_FreeType, Cmd.cerr "INFO :Unable to initialize FreeType library"])
  else if env.faceError then
    (none, [Cmd.FT_Init_FreeType, Cmd.FT_New_Face path,
      Cmd.cerr "INFO :Unable to load font file", Cmd.FT_Done_FreeType])
  else if env.sizeError then
    (none, [Cmd.FT_Init_FreeType, Cmd.FT_New_Face path, Cmd.FT_Set_Pixel_Sizes size,
      Cmd.cerr "INFO :Unable to set font size", Cmd.FT_Done_Face, Cmd.FT_Done_FreeType])
  else
    let start : Font × List Cmd :=
      ({ size := size, glyphs := [] },
        [Cmd.FT_Init_FreeType, Cmd.FT_New_Face path, Cmd.FT_Set_Pixel_Sizes size])
    let loaded := (List.range 128).foldl (Font.Load.step env color) start
    (some loaded.1, loaded.2 ++ [Cmd.FT_Done_Face, Cmd.FT_Done_FreeType])

/-- `Font::GetGlyph(codepoint)`: `glyphs.find(codepoint)`. -/
def Font.GetGlyph (font : Font) (codepoint : Nat) : Option Glyph :=
  font.glyphs.lookup codepoint

/-- The loop of `Renderer::DrawText(text, pos, Font* font)` over the bytes of
`text`, with the pen at `pos`. The `int` metrics are converted to `float`
and every sum, difference and `pos.x += advance_x` is rounded to `float`. -/
def DrawText.loop (lib : Libm) (st : Renderer) (font : Font) : List Nat → Point → List Cmd
  | [], _ => []
  | byte :: rest, pos =>
    let codepoint := byte % 256
    match font.GetGlyph codepoint with
    | none => DrawText.loop lib st font rest pos
    | some glyph =>
      let dest : Rect :=
        ⟨Float32.add pos.x (Float32.ofInt glyph.bitmap_left),
          Float32.sub pos.y (Float32.ofInt glyph.bitmap_top),
          Float32.ofInt glyph.w, Float32.ofInt glyph.h⟩
      DrawTexture lib st glyph.texture dest 0 ++
        DrawText.loop lib st font rest
          ⟨Float32.add pos.x (Float32.ofInt glyph.advance_x), pos.y⟩

/-- `Renderer::DrawText(text, pos, Font* font)`; `text` is the sequence of the
bytes of the string. -/
def DrawText (lib : Libm) (st : Renderer) (text : List Nat) (pos : Point)
    (font : Option Font) : List Cmd :=
  match font with
  | none => []
  | some font => DrawText.loop lib st font text pos

/-! ## Call sequences -/

/-- One call of the application into the renderer after `Init`, with its
arguments and, for the string-cache `DrawText`, what the platform answers. -/
inductive Call where
  | HandleWindowResize (width height : Int)
  | DrawRect (caller : Nat) (rect : Rect) (fill : Color)
  | DrawLine (p1 p2 : Point) (color : Color) (width : ℚ)
  | DrawTexture (tex : Nat) (dest : Rect) (rotation : ℚ)
  | DrawTexturePtr (tex : Option Texture) (dest : Rect) (rotation : ℚ)
  | DrawText (text : List Nat) (pos : Point) (font : Option Font)
  | DrawTextFontA (env : TextEnv) (text : String) (pos : Point) (font : Option FontA)
      (color : Color) (scale rotation : ℚ)

/-- The effect of one call: the globals afterwards, the commands issued, and
whether the call ended in a fault. A faulting string-cache `DrawText` has
issued the commands of its `GetTextTexture` before the fault. -/
def Call.run (lib : Libm) (st : Renderer) : Call → Renderer × List Cmd × Bool
  | Call.HandleWindowResize width height =>
    ((gfx.HandleWindowResize st width height).1, (gfx.HandleWindowResize st width height).2,
      false)
  | Call.DrawRect caller rect fill =>
    match gfx.DrawRect st caller rect fill with
    | Except.ok cmds => (st, cmds, false)
    | Except.error _ => (st, [], true)
  | Call.DrawLine p1 p2 color width => (st, gfx.DrawLine st p1 p2 color width, false)
  | Call.DrawTexture tex dest rotation => (st, gfx.DrawTexture lib st tex dest rotation, false)
  | Call.DrawTexturePtr tex dest rotation =>
    match DrawTexture.ptr lib st tex dest rotation with
    | Except.ok cmds => (st, cmds, false)
    | Except.error _ => (st, [], true)
  | Call.DrawText text pos font => (st, gfx.DrawText lib st text pos font, false)
  | Call.DrawTextFontA env text pos font color scale rotation =>
    match DrawText.fontA lib st env text pos font color scale rotation with
    | Except.ok result => (st, result.2, false)
    | Except.error _ => (st, (FontA.GetTextTexture env font (some text) color).2.2, true)

/-- A sequence of calls made one after the other; a fault ends the run. The
result is the globals at the end and all commands issued. -/
def runCalls (lib : Libm) : Renderer → List Call → Renderer × List Cmd
  | st, [] => (st, [])
  | st, call :: rest =>
    match Call.run lib st call with
    | (st2, cmds, true) => (st2, cmds)
    | (st2, cmds, false) => ((runCalls lib st2 rest).1, cmds ++ (runCalls lib st2 rest).2)

/-! ## Sample platform answers used at concrete inputs -/

/-- A platform on which every step of `Init` succeeds, for an 800×600 window. -/
def InitEnv.ok : InitEnv :=
  { context := 7, glewErr := GLEW_OK, GLEW_VERSION_2_1 := true
    lineVAO := 1, lineVBO := 1, quadVAO := 2, quadVBO := 2
    vertexShader := 1, fragmentShader := 2
    vertexCompiled := true, fragmentCompiled := true
    program := 3, linked := true
    width := 800, height := 600 }

/-- A successful rasterisation to a 20×10 surface uploaded under the texture
name `textureID`. -/
def TextEnv.ok (textureID : Nat) : TextEnv :=
  { surface := some ⟨20, 10⟩, converted := some ⟨20, 10⟩
    textureID := textureID, err := GL_NO_ERROR }

/-- A dispatcher with one listener (numbered 0) on every event type and the
key `A` held down. -/
def Event.busyDispatcher : Event.Dispatcher Nat :=
  (Event.PollEvents
    { Event.Dispatcher.initial Nat with eventListeners := fun _ => [0] }
    (Event.SDL_Event.keyDown Event.SDLK_a)).1

/-- The font object after a fresh `Load` and one successful
`GetTextTexture(font, "hi", White)` that uploaded under the texture name 1. -/
def cachedFont : FontA :=
  { font_ := 9, TextCache := "", TextureCached := some { id := 1, width := 20, height := 10 } }

/-- The claim's account of the pen: the sum of `advance_x` over the bytes of
`bytes` that have a glyph in `font`. -/
def DrawText.penAdvance (font : Font) (bytes : List Nat) : ℚ :=
  (bytes.map fun byte =>
    match font.GetGlyph (byte % 256) with
    | none => (0 : ℚ)
    | some glyph => (glyph.advance_x : ℚ)).sum

/-- The rectangle the claim gives for the byte at position `k` of `text` when
it has the glyph `glyph`: exact sums. -/
def DrawText.claimedRect (font : Font) (text : List Nat) (pos : Point) (k : Nat)
    (glyph : Glyph) : Rect :=
  ⟨pos.x + DrawText.penAdvance font (text.take k) + glyph.bitmap_left,
    pos.y - glyph.bitmap_top, glyph.w, glyph.h⟩

/-- The pen after the bytes `bytes`, started at `start`: the `advance_x` of
each byte that has a glyph is added in turn, each sum rounded to `float`. -/
def DrawText.pen (font : Font) (start : ℚ) (bytes : List Nat) : ℚ :=
  bytes.foldl
    (fun pen byte =>
      match font.GetGlyph (byte % 256) with
      | none => pen
      | some glyph => Float32.add pen (Float32.ofInt glyph.advance_x))
    start

/-- The rectangle of the byte at position `k` of `text` when it has the glyph
`glyph`, in `float` arithmetic: the pen after the earlier bytes plus the
bearing, each conversion and sum rounded. -/
def DrawText.rect (font : Font) (text : List Nat) (pos : Point) (k : Nat) (glyph : Glyph) :
    Rect :=
  ⟨Float32.add (DrawText.pen font pos.x (text.take k)) (Float32.ofInt glyph.bitmap_left),
    Float32.sub pos.y (Float32.ofInt glyph.bitmap_top),
    Float32.ofInt glyph.w, Float32.ofInt glyph.h⟩

/-- The account of `DrawText(text, pos, font)` by position: for each position
`k` of `text` in order, nothing when the byte has no glyph, and otherwise one
`DrawTexture` of the glyph's texture with rotation 0 at `DrawText.rect`. -/
def DrawText.expected (lib : Libm) (st : Renderer) (font : Font) (text : List Nat)
    (pos : Point) : List Cmd :=
  (List.range text.length).flatMap fun k =>
    match font.GetGlyph (text.getD k 0 % 256) with
    | none => []
    | some glyph => DrawTexture lib st glyph.texture (DrawText.rect font text pos k glyph) 0

/-- An atlas holding one glyph, for `A`: a 1×1 bitmap with no bearing that
advances the pen by 1, under the texture name 7. -/
def Font.unitAdvance : Font :=
  { size := 16, glyphs := [(65, ⟨0, 0, 1, 7, 1, 1⟩)] }

/-- An atlas holding the same glyph metrics for `A` and `C` (bearing (1, 9),
advance 8, a 2×1 bitmap) under the texture names 66 and 68, and no glyph for
`B`. -/
def Font.twoGlyphs : Font :=
  { size := 16, glyphs := [(65, ⟨1, 9, 8, 66, 2, 1⟩), (67, ⟨1, 9, 8, 68, 2, 1⟩)] }

/-- The first `n` pixels of `rgbaBuffer` hold the tint in their first three
bytes and the coverage of `grayBuffer` in the fourth. -/
def Font.Load.pixelsDone (rgbaBuffer grayBuffer : List Nat) (color : Color) (n : Nat) : Prop :=
  ∀ i < n, rgbaBuffer[4 * i]? = some color.r ∧ rgbaBuffer[4 * i + 1]? = some color.g ∧
    rgbaBuffer[4 * i + 2]? = some color.b ∧
    rgbaBuffer[4 * i + 3]? = some (grayBuffer.getD i 0)

/-- A font file whose set-up succeeds and in which every code point except 66
rasterises, to a 2×1 bitmap; the glyph of code point `i` gets the texture name
`i + 1`. -/
def FontEnv.sample : FontEnv :=
  { initError := false
    faceError := false
    sizeError := false
    loadChar := fun i =>
      if i = 66 then none
      else some { width := 2, rows := 1, buffer := [40, 200], bitmap_left := 1
                  bitmap_top := 9, advance_x := 512 }
    texture := fun i => i + 1 }

/-- A C library whose cosine and sine answer 3/5 and 4/5 for every angle. -/
def Libm.sample : Libm :=
  { cos := fun _ => 3 / 5, sin := fun _ => 4 / 5 }

/-- The globals after a successful `Init` on thread 1 with window 5. -/
def Renderer.ready : Renderer :=
  (Init Renderer.initial InitEnv.ok 1 5).2.1

/-- A resize to 1024×768 followed by one call of each drawing operation. -/
def sampleCalls : List Call :=
  [ Call.HandleWindowResize 1024 768,
    Call.DrawRect 1 ⟨100, 100, 200, 150⟩ Red,
    Call.DrawLine ⟨0, 0⟩ ⟨50, 50⟩ White 2,
    Call.DrawTexture 3 ⟨10, 20, 40, 30⟩ 90,
    Call.DrawTexturePtr (some { id := 4, width := 8, height := 8 }) ⟨0, 0, 8, 8⟩ 0,
    Call.DrawText [65, 66] ⟨10, 20⟩ (some { size := 16, glyphs := [] }),
    Call.DrawTextFontA (TextEnv.ok 2) "ho" ⟨0, 0⟩ (some cachedFont) Red 1 0 ]

/-! # Properties -/

namespace Event

/-! ## Key translation -/

/-- A platform key code outside the case labels falls to the `default` branch. -/
theorem ConvertSDLKeyCode_of_not_mem (k : Int) (h : k ∉ mappedKeys) :
    ConvertSDLKeyCode k = KeyCode.Unknown := by
  simp only [mappedKeys, List.mem_cons, List.mem_singleton, not_or, List.mem_nil_iff,
    not_false_eq_true, and_true] at h
  simp [ConvertSDLKeyCode, h]

/-- Every case label is translated to a key code other than `Unknown`, so
`mappedKeys` is exactly the set of platform codes with a table entry. -/
theorem ConvertSDLKeyCode_of_mem :
    ∀ k ∈ mappedKeys, ConvertSDLKeyCode k ≠ KeyCode.Unknown := by
  decide

/-- The state update of a key-down event. -/
theorem PollEvents_keyDown_keyStates {κ : Type} (d : Dispatcher κ) (e : SDL_Event)
    (h : e.type = SDL_KEYDOWN) :
    (PollEvents d e).1.keyStates =
      Function.update d.keyStates (ConvertSDLKeyCode e.key_sym) true := by
  simp [PollEvents, translate, h, SDL_KEYDOWN, SDL_MOUSEBUTTONDOWN, SDL_MOUSEBUTTONUP,
    SDL_MOUSEMOTION]

/-- The state update of a key-up event. -/
theorem PollEvents_keyUp_keyStates {κ : Type} (d : Dispatcher κ) (e : SDL_Event)
    (h : e.type = SDL_KEYUP) :
    (PollEvents d e).1.keyStates =
      Function.update d.keyStates (ConvertSDLKeyCode e.key_sym) false := by
  simp [PollEvents, translate, h, SDL_KEYDOWN, SDL_KEYUP, SDL_MOUSEBUTTONDOWN,
    SDL_MOUSEBUTTONUP, SDL_MOUSEMOTION]

/-- C1. For every dispatcher state and every platform key code `k`: after
`PollEvents` of a key-down event for `k`, `IsKeyPressed` of the translation of
`k` is true; after a following `PollEvents` of a key-up event for `k` it is
false. -/
theorem key_down_then_up {κ : Type} (d : Dispatcher κ) (down up : SDL_Event)
    (hd : down.type = SDL_KEYDOWN) (hu : up.type = SDL_KEYUP)
    (hk : up.key_sym = down.key_sym) :
    IsKeyPressed (PollEvents d down).1 (ConvertSDLKeyCode down.key_sym) = true ∧
    IsKeyPressed (PollEvents (PollEvents d down).1 up).1
      (ConvertSDLKeyCode down.key_sym) = false := by
  constructor
  · unfold IsKeyPressed
    rw [PollEvents_keyDown_keyStates d down hd, Function.update_same]
  · unfold IsKeyPressed
    rw [PollEvents_keyUp_keyStates _ up hu, hk, Function.update_same]

/-- C1 at the platform code of the key `A`, from the initial dispatcher. -/
theorem key_down_then_up_witness :
    (SDL_Event.keyDown SDLK_a).type = SDL_KEYDOWN ∧
    (SDL_Event.keyUp SDLK_a).type = SDL_KEYUP ∧
    (SDL_Event.keyUp SDLK_a).key_sym = (SDL_Event.keyDown SDLK_a).key_sym ∧
    IsKeyPressed (PollEvents (Dispatcher.initial Unit) (SDL_Event.keyDown SDLK_a)).1
      (ConvertSDLKeyCode (SDL_Event.keyDown SDLK_a).key_sym) = true ∧
    IsKeyPressed
      (PollEvents (PollEvents (Dispatcher.initial Unit) (SDL_Event.keyDown SDLK_a)).1
        (SDL_Event.keyUp SDLK_a)).1
      (ConvertSDLKeyCode (SDL_Event.keyDown SDLK_a).key_sym) = false :=
  ⟨rfl, rfl, rfl,
    key_down_then_up (Dispatcher.initial Unit) (SDL_Event.keyDown SDLK_a)
      (SDL_Event.keyUp SDLK_a) rfl rfl rfl⟩

/-- C2 as stated fails: the platform code 127 (`SDLK_DELETE`) has no entry in the
translation table, `IsKeyPressed(Unknown)` is false in the initial dispatcher,
and it is true after `PollEvents` of a key-down event carrying 127. -/
theorem unmapped_key_down_sets_unknown :
    (127 : Int) ∉ mappedKeys ∧
    IsKeyPressed (Dispatcher.initial Unit) KeyCode.Unknown = false ∧
    IsKeyPressed (PollEvents (Dispatcher.initial Unit) (SDL_Event.keyDown 127)).1
      KeyCode.Unknown = true := by
  refine ⟨by decide, rfl, ?_⟩
  unfold IsKeyPressed
  rw [PollEvents_keyDown_keyStates _ (SDL_Event.keyDown 127) rfl,
    ConvertSDLKeyCode_of_not_mem (SDL_Event.keyDown 127).key_sym (by decide),
    Function.update_same]

/-- C2, amended. A platform key code with no entry in the translation table is
translated to `Unknown`, and `PollEvents` of a key-down or key-up event carrying
it leaves `IsKeyPressed` unchanged for every key code other than `Unknown`;
`IsKeyPressed(Unknown)` is true after the key-down and false after the
key-up. -/
theorem unmapped_key_frame {κ : Type} (k : Int) (hk : k ∉ mappedKeys)
    (d : Dispatcher κ) (e : SDL_Event)
    (ht : e.type = SDL_KEYDOWN ∨ e.type = SDL_KEYUP) (he : e.key_sym = k) :
    ConvertSDLKeyCode k = KeyCode.Unknown ∧
    (∀ key, key ≠ KeyCode.Unknown →
      IsKeyPressed (PollEvents d e).1 key = IsKeyPressed d key) ∧
    IsKeyPressed (PollEvents d e).1 KeyCode.Unknown = decide (e.type = SDL_KEYDOWN) := by
  have hU := ConvertSDLKeyCode_of_not_mem k hk
  subst he
  refine ⟨hU, ?_, ?_⟩
  · intro key hkey
    unfold IsKeyPressed
    rcases ht with ht | ht
    · rw [PollEvents_keyDown_keyStates d e ht, hU, Function.update_noteq hkey]
    · rw [PollEvents_keyUp_keyStates d e ht, hU, Function.update_noteq hkey]
  · unfold IsKeyPressed
    rcases ht with ht | ht
    · rw [PollEvents_keyDown_keyStates d e ht, hU, Function.update_same, ht]
      rfl
    · rw [PollEvents_keyUp_keyStates d e ht, hU, Function.update_same, ht]
      rfl

/-- C2, amended, at the platform code 127 and a key-up event, from the initial
dispatcher. -/
theorem unmapped_key_frame_witness :
    (127 : Int) ∉ mappedKeys ∧
    ((SDL_Event.keyUp 127).type = SDL_KEYDOWN ∨ (SDL_Event.keyUp 127).type = SDL_KEYUP) ∧
    (SDL_Event.keyUp 127).key_sym = 127 ∧
    (ConvertSDLKeyCode 127 = KeyCode.Unknown ∧
      (∀ key, key ≠ KeyCode.Unknown →
        IsKeyPressed (PollEvents (Dispatcher.initial Unit) (SDL_Event.keyUp 127)).1 key =
          IsKeyPressed (Dispatcher.initial Unit) key) ∧
      IsKeyPressed (PollEvents (Dispatcher.initial Unit) (SDL_Event.keyUp 127)).1
        KeyCode.Unknown = decide ((SDL_Event.keyUp 127).type = SDL_KEYDOWN)) :=
  ⟨by decide, Or.inr rfl, rfl,
    unmapped_key_frame 127 (by decide) (Dispatcher.initial Unit) (SDL_Event.keyUp 127)
      (Or.inr rfl) rfl⟩

/-! ## Listener dispatch -/

/-- The `switch` of `PollEvents` never touches the listener registry. -/
theorem translate_eventListeners {κ : Type} (d : Dispatcher κ) (e : SDL_Event) :
    (translate d e).2.eventListeners = d.eventListeners := by
  unfold translate
  simp only []
  split_ifs <;> rfl

/-- `PollEvents` unfolded: the invocations are the stored listeners of the
translated type, each applied to the translated event, unless that type is
`None`. -/
theorem PollEvents_invocations {κ : Type} (d : Dispatcher κ) (e : SDL_Event) :
    (PollEvents d e).2 =
      if (translate d e).1.type ≠ EventType.None then
        (d.eventListeners (translate d e).1.type).map
          fun callback => (callback, (translate d e).1)
      else [] := by
  rw [← translate_eventListeners d e]
  unfold PollEvents
  generalize translate d e = r
  obtain ⟨event, d1⟩ := r
  by_cases h : event.type = EventType.None <;> simp [h]

/-- `AddListener` appends to the list of its own type. -/
theorem AddListener_same {κ : Type} (d : Dispatcher κ) (t : EventType) (f : κ) :
    (AddListener d t f).eventListeners t = d.eventListeners t ++ [f] := by
  simp [AddListener]

/-- `AddListener` leaves the lists of the other types alone. -/
theorem AddListener_other {κ : Type} (d : Dispatcher κ) (t u : EventType) (f : κ)
    (h : u ≠ t) :
    (AddListener d t f).eventListeners u = d.eventListeners u := by
  simp [AddListener, Function.update_noteq h]

/-- After a sequence of registrations the list of type `t` is the previous list
followed by the callbacks registered for `t`, in registration order. -/
theorem registerAll_eventListeners {κ : Type} (regs : List (EventType × κ))
    (d : Dispatcher κ) (t : EventType) :
    (registerAll d regs).eventListeners t = d.eventListeners t ++ registeredFor t regs := by
  induction regs generalizing d with
  | nil => simp [registerAll, registeredFor]
  | cons p rest ih =>
    obtain ⟨u, f⟩ := p
    rw [registerAll, ih]
    by_cases h : u = t
    · subst h
      simp [AddListener_same, registeredFor]
    · have h2 : t ≠ u := fun hh => h hh.symm
      simp [AddListener_other d u t f h2, registeredFor, h]

/-- C3 as stated fails for the type `None`: with one callback registered for
`None`, a platform quit event translates to type `None`, and `PollEvents`
invokes nothing although the callbacks registered for that type are `[1]`. -/
theorem none_listener_never_invoked :
    (translate (registerAll (Dispatcher.initial Nat) [(EventType.None, 1)])
      (SDL_Event.ofType SDL_QUIT)).1.type = EventType.None ∧
    registeredFor EventType.None [(EventType.None, 1)] = [1] ∧
    (PollEvents (registerAll (Dispatcher.initial Nat) [(EventType.None, 1)])
      (SDL_Event.ofType SDL_QUIT)).2 = [] := by
  refine ⟨rfl, rfl, rfl⟩

/-- C3, amended. For every event type `t` other than `None` and every sequence
of registrations made with `AddListener` from program start, `PollEvents` of a
platform event that translates to type `t` invokes exactly the callbacks
registered for `t`, each once per registration, in registration order, each
with the translated event, and invokes no other callback. -/
theorem listeners_in_registration_order {κ : Type} (regs : List (EventType × κ))
    (e : SDL_Event) (t : EventType)
    (ht : (translate (registerAll (Dispatcher.initial κ) regs) e).1.type = t)
    (hne : t ≠ EventType.None) :
    (PollEvents (registerAll (Dispatcher.initial κ) regs) e).2 =
      (registeredFor t regs).map
        fun f => (f, (translate (registerAll (Dispatcher.initial κ) regs) e).1) := by
  rw [PollEvents_invocations, ht, if_pos hne, registerAll_eventListeners]
  simp [Dispatcher.initial]

/-- C3, amended, at the registrations `f1, g, f2, f3` (with `g` for key-up) and
one key-down event: the invocations are `f1, f2, f3` in that order. -/
theorem listeners_in_registration_order_witness :
    (translate
      (registerAll (Dispatcher.initial Nat)
        [(EventType.KeyDown, 1), (EventType.KeyUp, 9), (EventType.KeyDown, 2),
         (EventType.KeyDown, 3)])
      (SDL_Event.keyDown SDLK_a)).1.type = EventType.KeyDown ∧
    EventType.KeyDown ≠ EventType.None ∧
    registeredFor EventType.KeyDown
      [(EventType.KeyDown, 1), (EventType.KeyUp, 9), (EventType.KeyDown, 2),
       (EventType.KeyDown, 3)] = [1, 2, 3] ∧
    (PollEvents
      (registerAll (Dispatcher.initial Nat)
        [(EventType.KeyDown, 1), (EventType.KeyUp, 9), (EventType.KeyDown, 2),
         (EventType.KeyDown, 3)])
      (SDL_Event.keyDown SDLK_a)).2 =
      (registeredFor EventType.KeyDown
        [(EventType.KeyDown, 1), (EventType.KeyUp, 9), (EventType.KeyDown, 2),
         (EventType.KeyDown, 3)]).map
        fun f => (f,
          (translate
            (registerAll (Dispatcher.initial Nat)
              [(EventType.KeyDown, 1), (EventType.KeyUp, 9), (EventType.KeyDown, 2),
               (EventType.KeyDown, 3)])
            (SDL_Event.keyDown SDLK_a)).1) :=
  ⟨rfl, by decide, rfl,
    listeners_in_registration_order
      [(EventType.KeyDown, 1), (EventType.KeyUp, 9), (EventType.KeyDown, 2),
       (EventType.KeyDown, 3)]
      (SDL_Event.keyDown SDLK_a) EventType.KeyDown rfl (by decide)⟩

/-- C4. For every platform event whose type is none of mouse-button-down,
mouse-button-up, mouse-motion, key-down and key-up, `PollEvents` invokes no
listener and leaves the key states, the mouse-button states and the last mouse
position unchanged. -/
theorem unrecognised_event_is_dropped {κ : Type} (d : Dispatcher κ) (e : SDL_Event)
    (h1 : e.type ≠ SDL_MOUSEBUTTONDOWN) (h2 : e.type ≠ SDL_MOUSEBUTTONUP)
    (h3 : e.type ≠ SDL_MOUSEMOTION) (h4 : e.type ≠ SDL_KEYDOWN)
    (h5 : e.type ≠ SDL_KEYUP) :
    (PollEvents d e).2 = [] ∧
    (PollEvents d e).1.keyStates = d.keyStates ∧
    (PollEvents d e).1.mouseButtonStates = d.mouseButtonStates ∧
    (PollEvents d e).1.currentMousePosition = d.currentMousePosition := by
  have ht : translate d e = (Event.zero, d) := by
    simp [translate, h1, h2, h3, h4, h5]
  simp [PollEvents, ht, Event.zero]

/-- C4 at a mouse-wheel event, with a listener registered for every type and
the key `A` held down. -/
theorem unrecognised_event_is_dropped_witness :
    (SDL_Event.ofType SDL_MOUSEWHEEL).type ≠ SDL_MOUSEBUTTONDOWN ∧
    (SDL_Event.ofType SDL_MOUSEWHEEL).type ≠ SDL_MOUSEBUTTONUP ∧
    (SDL_Event.ofType SDL_MOUSEWHEEL).type ≠ SDL_MOUSEMOTION ∧
    (SDL_Event.ofType SDL_MOUSEWHEEL).type ≠ SDL_KEYDOWN ∧
    (SDL_Event.ofType SDL_MOUSEWHEEL).type ≠ SDL_KEYUP ∧
    ((PollEvents busyDispatcher (SDL_Event.ofType SDL_MOUSEWHEEL)).2 = [] ∧
      (PollEvents busyDispatcher (SDL_Event.ofType SDL_MOUSEWHEEL)).1.keyStates =
        busyDispatcher.keyStates ∧
      (PollEvents busyDispatcher (SDL_Event.ofType SDL_MOUSEWHEEL)).1.mouseButtonStates =
        busyDispatcher.mouseButtonStates ∧
      (PollEvents busyDispatcher (SDL_Event.ofType SDL_MOUSEWHEEL)).1.currentMousePosition =
        busyDispatcher.currentMousePosition) :=
  ⟨by decide, by decide, by decide, by decide, by decide,
    unrecognised_event_is_dropped busyDispatcher (SDL_Event.ofType SDL_MOUSEWHEEL)
      (by decide) (by decide) (by decide) (by decide) (by decide)⟩

end Event

/-! ## Texture creation -/

/-- C5 as stated fails: for the positive dimensions 4096×4096, when the backend
reports `GL_OUT_OF_MEMORY` after the allocation, `CreateTexture` returns the
null result. -/
theorem CreateTexture_null_on_backend_error :
    (0 : Int) < 4096 ∧ (CreateTexture 1 GL_OUT_OF_MEMORY 4096 4096).1 = none := by
  decide

/-- C5, amended. `CreateTexture(w, h)` returns a texture exactly when `w > 0`,
`h > 0` and the backend reports no error after the allocation, and that texture
has width `w`, height `h` and the generated name; in every other case, in
particular for `w ≤ 0` or `h ≤ 0`, it returns the null result. -/
theorem CreateTexture_result (textureID err : Nat) (width height : Int) :
    (CreateTexture textureID err width height).1 =
      if 0 < width ∧ 0 < height ∧ err = GL_NO_ERROR then
        some { id := textureID, width := width, height := height }
      else none := by
  unfold CreateTexture
  by_cases hd : width ≤ 0 ∨ height ≤ 0
  · have hn : ¬ (0 < width ∧ 0 < height ∧ err = GL_NO_ERROR) := by
      rintro ⟨hw, hh, -⟩
      omega
    rw [if_pos hd, if_neg hn]
  · have hw : 0 < width ∧ 0 < height := by omega
    rw [if_neg hd]
    by_cases he : err = GL_NO_ERROR
    · simp [he, hw]
    · simp [he]

/-! ## Renderer initialisation -/

/-- Whatever happens inside `Init`, a non-null window passed to it is recorded
as bound afterwards. -/
theorem Init_binds_window (st : Renderer) (env : InitEnv) (thread window : Nat)
    (hw : window ≠ 0) :
    (Init st env thread window).2.1.s_window ≠ 0 := by
  unfold Init Init.pipeline
  by_cases h0 : st.s_window = 0
  · simp only [h0, ne_eq, not_true_eq_false, if_false]
    split_ifs <;> exact hw
  · simp only [ne_eq, h0, not_false_eq_true, if_true]

/-- With a window already bound, `Init` returns success at once. -/
theorem Init_bound (st : Renderer) (env : InitEnv) (thread window : Nat)
    (h : st.s_window ≠ 0) :
    Init st env thread window = (true, st, []) := by
  unfold Init
  rw [if_pos h]

/-- C6. After an `Init` call that returned success, a second `Init` call with
the same window returns success, issues no command and leaves every global
unchanged, in particular the shader program and the quad and line buffer
handles. -/
theorem Init_twice (st : Renderer) (env env2 : InitEnv) (thread thread2 window : Nat)
    (hw : window ≠ 0) (h : (Init st env thread window).1 = true) :
    Init (Init st env thread window).2.1 env2 thread2 window =
      (true, (Init st env thread window).2.1, []) :=
  have _ := h
  Init_bound _ env2 thread2 window (Init_binds_window st env thread window hw)

/-- C6 from program start on a platform where every step succeeds. -/
theorem Init_twice_witness :
    (5 : Nat) ≠ 0 ∧ (Init Renderer.initial InitEnv.ok 1 5).1 = true ∧
    Init (Init Renderer.initial InitEnv.ok 1 5).2.1 InitEnv.ok 1 5 =
      (true, (Init Renderer.initial InitEnv.ok 1 5).2.1, []) :=
  ⟨by decide, rfl, Init_twice Renderer.initial InitEnv.ok InitEnv.ok 1 1 5 (by decide) rfl⟩

/-- When context creation fails, `Init` returns failure. -/
theorem Init_context_failure (st : Renderer) (env : InitEnv) (thread window : Nat)
    (h0 : st.s_window = 0) (hc : env.context = 0) :
    (Init st env thread window).1 = false := by
  simp [Init, h0, hc]

/-- Past the context, loader and version checks the flag `Init` returns does not
depend on the compile and link status. -/
theorem Init_flag_ignores_shader_status (st : Renderer) (env : InitEnv)
    (thread window : Nat) (h0 : st.s_window = 0) (hc : env.context ≠ 0)
    (hg : env.glewErr = GLEW_OK) (hv : env.GLEW_VERSION_2_1 = true) :
    (Init st env thread window).1 = true := by
  simp [Init, h0, hc, hg, hv]

/-- C7, the code at the failing inputs: from program start, with the context,
the loader and the version check succeeding, `Init` logs the error and returns
success when the vertex shader fails to compile, when the fragment shader fails
to compile, and when the program fails to link. -/
theorem Init_succeeds_despite_shader_failure :
    ((Init Renderer.initial { InitEnv.ok with vertexCompiled := false } 1 5).1 = true ∧
      Cmd.SDL_Log "Vertex shader compile error" ∈
        (Init Renderer.initial { InitEnv.ok with vertexCompiled := false } 1 5).2.2) ∧
    ((Init Renderer.initial { InitEnv.ok with fragmentCompiled := false } 1 5).1 = true ∧
      Cmd.SDL_Log "Fragment shader compile error" ∈
        (Init Renderer.initial { InitEnv.ok with fragmentCompiled := false } 1 5).2.2) ∧
    ((Init Renderer.initial { InitEnv.ok with linked := false } 1 5).1 = true ∧
      Cmd.SDL_Log "Shader program link error" ∈
        (Init Renderer.initial { InitEnv.ok with linked := false } 1 5).2.2) := by
  refine ⟨⟨rfl, ?_⟩, ⟨rfl, ?_⟩, ⟨rfl, ?_⟩⟩ <;>
    simp [Init, Init.pipeline, Renderer.initial, InitEnv.ok, GLEW_OK]

/-! ## Thread affinity -/

/-- `Clear` off the render thread throws before issuing any command. -/
theorem Clear_rejects_other_thread (st : Renderer) (T U : Nat) (bg : Color)
    (hT : st.s_renderThreadId = some T) (hU : U ≠ T) :
    Clear st U bg = Except.error "GFX operation called from non-render thread" := by
  simp [Clear, VerifyRenderThread, IsRenderThread, hT, hU, bind, Except.bind]

/-- `Present` off the render thread throws before issuing any command. -/
theorem Present_rejects_other_thread (st : Renderer) (T U : Nat)
    (hT : st.s_renderThreadId = some T) (hU : U ≠ T) :
    Present st U = Except.error "GFX operation called from non-render thread" := by
  simp [Present, VerifyRenderThread, IsRenderThread, hT, hU, bind, Except.bind]

/-- `DrawRect` issues its quad draw whatever the calling thread is. -/
theorem DrawRect_ignores_thread (st : Renderer) (U : Nat) (rect : Rect) (fill : Color) :
    ∃ cmds, DrawRect st U rect fill = Except.ok cmds ∧
      Cmd.glDrawArrays "GL_TRIANGLE_FAN" 0 4 ∈ cmds := by
  refine ⟨_, rfl, ?_⟩
  simp

/-- C8, the code at the failing input: after a successful `Init` on thread 1,
`Clear` and `Present` called on thread 2 are rejected with the thread-affinity
error, but `DrawRect` called on thread 2 is not rejected and issues its quad
draw. -/
theorem DrawRect_runs_off_render_thread :
    (Init Renderer.initial InitEnv.ok 1 5).1 = true ∧
    (Init Renderer.initial InitEnv.ok 1 5).2.1.s_renderThreadId = some 1 ∧
    Clear (Init Renderer.initial InitEnv.ok 1 5).2.1 2 White =
      Except.error "GFX operation called from non-render thread" ∧
    Present (Init Renderer.initial InitEnv.ok 1 5).2.1 2 =
      Except.error "GFX operation called from non-render thread" ∧
    ∃ cmds,
      DrawRect (Init Renderer.initial InitEnv.ok 1 5).2.1 2 ⟨100, 100, 200, 150⟩ Red =
        Except.ok cmds ∧
      Cmd.glDrawArrays "GL_TRIANGLE_FAN" 0 4 ∈ cmds :=
  ⟨rfl, rfl, rfl, rfl, _, rfl, by simp⟩

/-! ## String-cache font -/

/-- `GetTextTexture` never assigns `TextCache`: whatever the call does, the
comparison string of the font object is the one it had before. -/
theorem GetTextTexture_keeps_TextCache (env : TextEnv) (f : FontA) (text : Option String)
    (color : Color) :
    (FontA.GetTextTexture env (some f) text color).2.1.map FontA.TextCache =
      some f.TextCache := by
  cases text with
  | none => rfl
  | some text =>
    by_cases h1 : f.TextCache = text
    · simp [FontA.GetTextTexture, h1]
    · rcases hs : env.surface with _ | surface
      · simp [FontA.GetTextTexture, h1, hs]
      · rcases hc : env.converted with _ | converted
        · simp [FontA.GetTextTexture, h1, hs, hc]
        · by_cases he : env.err = GL_NO_ERROR
          · simp [FontA.GetTextTexture, h1, hs, hc, he]
          · simp [FontA.GetTextTexture, h1, hs, hc, he]

/-- A freshly loaded font compares every request against the empty string. -/
theorem Load_TextCache (handle : Nat) (f : FontA) (h : FontA.Load handle = some f) :
    f.TextCache = "" := by
  unfold FontA.Load at h
  split_ifs at h
  cases h
  rfl

/-- When the requested text equals the comparison string, `GetTextTexture`
returns the cache slot as it is and issues no command. -/
theorem GetTextTexture_hit (env : TextEnv) (f : FontA) (text : String) (color : Color)
    (h : f.TextCache = text) :
    FontA.GetTextTexture env (some f) (some text) color = (f.TextureCached, some f, []) := by
  simp [FontA.GetTextTexture, h]

/-- C9, the code at the failing input: on a freshly loaded font,
`GetTextTexture(font, "hi", White)` succeeds and returns the texture named 1;
the immediately following `GetTextTexture(font, "hi", White)` rasterises again,
generates the texture name 2, deletes texture 1 and returns a texture named 2.
The comparison string is still empty after both calls. -/
theorem GetTextTexture_same_string_reallocates :
    (FontA.GetTextTexture (TextEnv.ok 1) (FontA.Load 9) (some "hi") White).1 =
      some { id := 1, width := 20, height := 10 } ∧
    (FontA.GetTextTexture (TextEnv.ok 2)
      (FontA.GetTextTexture (TextEnv.ok 1) (FontA.Load 9) (some "hi") White).2.1
      (some "hi") White).1 = some { id := 2, width := 20, height := 10 } ∧
    Cmd.TTF_RenderText_Blended 9 "hi" White ∈
      (FontA.GetTextTexture (TextEnv.ok 2)
        (FontA.GetTextTexture (TextEnv.ok 1) (FontA.Load 9) (some "hi") White).2.1
        (some "hi") White).2.2 ∧
    Cmd.glGenTextures 2 ∈
      (FontA.GetTextTexture (TextEnv.ok 2)
        (FontA.GetTextTexture (TextEnv.ok 1) (FontA.Load 9) (some "hi") White).2.1
        (some "hi") White).2.2 ∧
    Cmd.glDeleteTextures 1 ∈
      (FontA.GetTextTexture (TextEnv.ok 2)
        (FontA.GetTextTexture (TextEnv.ok 1) (FontA.Load 9) (some "hi") White).2.1
        (some "hi") White).2.2 ∧
    (FontA.GetTextTexture (TextEnv.ok 2)
      (FontA.GetTextTexture (TextEnv.ok 1) (FontA.Load 9) (some "hi") White).2.1
      (some "hi") White).2.1.map FontA.TextCache = some "" := by
  refine ⟨by decide, by decide, ?_, ?_, ?_, by decide⟩ <;>
    simp [FontA.GetTextTexture, FontA.Load, TextEnv.ok, GL_NO_ERROR, Texture.destroy]

/-- C10. For a font whose cache slot holds the texture `old` for the string
`s1`, and a string `s2` different from `s1` whose rasterisation, conversion and
upload succeed under a texture name the backend has freshly generated (non-zero
and not in use, while the name of `old` is in use): `GetTextTexture(font, s2, c)`
returns a texture whose name is non-zero and differs from that of `old`, issues
the backend delete for `old`, and stores the returned texture in the single
cache slot; the texture names in use afterwards are the previous ones without
that of `old` and with the new one. -/
theorem GetTextTexture_miss_replaces (env : TextEnv) (f : FontA) (s1 s2 : String)
    (old : Texture) (c : Color) (surface converted : Surface) (live : List Nat)
    (hs1 : f.TextCache = s1) (hold : f.TextureCached = some old) (hne : s2 ≠ s1)
    (hsurf : env.surface = some surface) (hconv : env.converted = some converted)
    (herr : env.err = GL_NO_ERROR)
    (hlive : old.id ∈ live) (hfresh : env.textureID ∉ live) (hnz : env.textureID ≠ 0) :
    ∃ t f2 cmds,
      FontA.GetTextTexture env (some f) (some s2) c = (some t, some f2, cmds) ∧
      t.id ≠ 0 ∧ t.id ≠ old.id ∧
      Cmd.glDeleteTextures old.id ∈ cmds ∧
      f2.TextureCached = some t ∧
      ∀ n, n ∈ liveTextures live cmds ↔ (n = t.id ∨ (n ∈ live ∧ n ≠ old.id)) := by
  have hmiss : ¬ f.TextCache = s2 := fun h => hne (h.symm.trans hs1)
  have hdiff : env.textureID ≠ old.id := fun h => hfresh (h ▸ hlive)
  refine ⟨Texture.mk env.textureID converted.w converted.h,
    FontA.mk f.font_ f.TextCache (some (Texture.mk env.textureID converted.w converted.h)),
    (FontA.GetTextTexture env (some f) (some s2) c).2.2, ?_, hnz, hdiff, ?_, rfl, ?_⟩
  · simp [FontA.GetTextTexture, hmiss, hsurf, hconv, herr, hold]
  · simp [FontA.GetTextTexture, hmiss, hsurf, hconv, herr, hold]
  · intro n
    have hn : n = env.textureID → n ≠ old.id := fun h => h ▸ hdiff
    by_cases h0 : old.id = 0
    · simp [FontA.GetTextTexture, hmiss, hsurf, hconv, herr, hold, liveTextures,
        Texture.destroy, h0, List.mem_filter]
      rw [h0] at hn
      tauto
    · simp [FontA.GetTextTexture, hmiss, hsurf, hconv, herr, hold, liveTextures,
        Texture.destroy, h0, List.mem_filter]
      tauto

/-- The font object `cachedFont` is the one a fresh load reaches by one
successful `GetTextTexture(font, "hi", White)`. -/
theorem cachedFont_reached :
    (FontA.GetTextTexture (TextEnv.ok 1) (FontA.Load 9) (some "hi") White).2.1 =
      some cachedFont := by
  decide

/-- C10 on the font reached by one successful `GetTextTexture(font, "hi", White)`
from a fresh load, whose comparison string is empty, and the request "ho". -/
theorem GetTextTexture_miss_replaces_witness :
    ∃ t f2 cmds,
      FontA.GetTextTexture (TextEnv.ok 2) (some cachedFont) (some "ho") Red =
        (some t, some f2, cmds) ∧
      t.id ≠ 0 ∧ t.id ≠ (Texture.mk 1 20 10).id ∧
      Cmd.glDeleteTextures (Texture.mk 1 20 10).id ∈ cmds ∧
      f2.TextureCached = some t ∧
      ∀ n, n ∈ liveTextures [1] cmds ↔ (n = t.id ∨ (n ∈ [1] ∧ n ≠ (Texture.mk 1 20 10).id)) :=
  GetTextTexture_miss_replaces (TextEnv.ok 2) cachedFont "" "ho" (Texture.mk 1 20 10) Red
    ⟨20, 10⟩ ⟨20, 10⟩ [1] rfl rfl (by decide) rfl rfl rfl (by decide) (by decide)
    (by decide)

/-- C11. For every string-cache font and every cache-miss call of
`GetTextTexture` in which the rasterisation, the surface conversion or the
upload fails, the call returns the null result and leaves the font object
(cached texture and comparison string) as it was; a previously cached texture
whose name is in use is not deleted, given that `glGenTextures` hands out a
name not in use. -/
theorem GetTextTexture_failure_keeps_cache (env : TextEnv) (f : FontA) (text : String)
    (color : Color) (hmiss : f.TextCache ≠ text)
    (hfail : env.surface = none ∨ env.converted = none ∨ env.err ≠ GL_NO_ERROR) :
    (FontA.GetTextTexture env (some f) (some text) color).1 = none ∧
    (FontA.GetTextTexture env (some f) (some text) color).2.1 = some f ∧
    ∀ (old : Texture) (live : List Nat), f.TextureCached = some old → old.id ∈ live →
      env.textureID ∉ live →
      Cmd.glDeleteTextures old.id ∉ (FontA.GetTextTexture env (some f) (some text) color).2.2 ∧
      old.id ∈ liveTextures live (FontA.GetTextTexture env (some f) (some text) color).2.2 := by
  rcases hs : env.surface with _ | surface
  · refine ⟨?_, ?_, ?_⟩
    · simp [FontA.GetTextTexture, hmiss, hs]
    · simp [FontA.GetTextTexture, hmiss, hs]
    · intro old live _ hlive _
      simp [FontA.GetTextTexture, hmiss, hs, liveTextures, hlive]
  · rcases hc : env.converted with _ | converted
    · refine ⟨?_, ?_, ?_⟩
      · simp [FontA.GetTextTexture, hmiss, hs, hc]
      · simp [FontA.GetTextTexture, hmiss, hs, hc]
      · intro old live _ hlive _
        simp [FontA.GetTextTexture, hmiss, hs, hc, liveTextures, hlive]
    · have he : env.err ≠ GL_NO_ERROR := by
        rcases hfail with h | h | h
        · rw [hs] at h
          cases h
        · rw [hc] at h
          cases h
        · exact h
      refine ⟨?_, ?_, ?_⟩
      · simp [FontA.GetTextTexture, hmiss, hs, hc, he]
      · simp [FontA.GetTextTexture, hmiss, hs, hc, he]
      · intro old live _ hlive hfresh
        have hdiff : old.id ≠ env.textureID := fun h => hfresh (h ▸ hlive)
        simp [FontA.GetTextTexture, hmiss, hs, hc, he, liveTextures, hlive, hdiff,
          List.mem_filter]

/-- C11 on the font holding texture 1, a request for "ho" and an upload that
ends in `GL_OUT_OF_MEMORY`. -/
theorem GetTextTexture_failure_keeps_cache_witness :
    (FontA.GetTextTexture { TextEnv.ok 2 with err := GL_OUT_OF_MEMORY } (some cachedFont)
      (some "ho") Red).1 = none ∧
    (FontA.GetTextTexture { TextEnv.ok 2 with err := GL_OUT_OF_MEMORY } (some cachedFont)
      (some "ho") Red).2.1 = some cachedFont ∧
    ∀ (old : Texture) (live : List Nat), cachedFont.TextureCached = some old →
      old.id ∈ live → ({ TextEnv.ok 2 with err := GL_OUT_OF_MEMORY } : TextEnv).textureID ∉ live →
      Cmd.glDeleteTextures old.id ∉
        (FontA.GetTextTexture { TextEnv.ok 2 with err := GL_OUT_OF_MEMORY } (some cachedFont)
          (some "ho") Red).2.2 ∧
      old.id ∈ liveTextures live
        (FontA.GetTextTexture { TextEnv.ok 2 with err := GL_OUT_OF_MEMORY } (some cachedFont)
          (some "ho") Red).2.2 :=
  GetTextTexture_failure_keeps_cache { TextEnv.ok 2 with err := GL_OUT_OF_MEMORY } cachedFont
    "ho" Red (by decide) (Or.inr (Or.inr (by decide)))

/-- When the fetched texture is a non-null object with a zero handle, the
`FontA` overload of `DrawText` returns after the fetch: it issues the commands
of `GetTextTexture` and nothing else. -/
theorem DrawText_fontA_zero_handle (lib : Libm) (st : Renderer) (env : TextEnv)
    (text : String) (pos : Point) (font font2 : Option FontA) (color : Color)
    (scale rotation : ℚ) (t : Texture) (cmds : List Cmd)
    (hget : FontA.GetTextTexture env font (some text) color = (some t, font2, cmds))
    (hzero : t.id = 0) :
    DrawText.fontA lib st env text pos font color scale rotation = Except.ok (font2, cmds) := by
  simp [DrawText.fontA, hget, hzero]

/-- C12, the code at the failing input: on a freshly loaded font, when the
rasterisation of "hi" fails, `GetTextTexture` returns the null pointer, and
`DrawText` then reads `texture->id` through it instead of returning. -/
theorem DrawText_fontA_null_texture_faults :
    (FontA.GetTextTexture { TextEnv.ok 1 with surface := none } (FontA.Load 9) (some "hi")
      White).1 = none ∧
    DrawText.fontA Libm.sample Renderer.ready { TextEnv.ok 1 with surface := none } "hi"
      ⟨10, 20⟩ (FontA.Load 9) White 1 0 = Except.error nullDereference := by
  constructor
  · decide
  · simp [DrawText.fontA, FontA.GetTextTexture, FontA.Load, TextEnv.ok]

/-! ## Texture release -/

/-- For a texture with a non-zero name `ReleaseTexture` issues the backend
delete for that name twice: once itself and once from the destructor. -/
theorem ReleaseTexture_commands (t : Texture) (h : t.id ≠ 0) :
    ReleaseTexture (some t) = [Cmd.glDeleteTextures t.id, Cmd.glDeleteTextures t.id] := by
  simp [ReleaseTexture, Texture.destroy, h]

/-- C18, the code at the failing input: for the texture named 1,
`ReleaseTexture` issues `glDeleteTextures(1)` two times; for the null pointer
it issues nothing. -/
theorem ReleaseTexture_deletes_twice :
    ReleaseTexture (some { id := 1, width := 4, height := 4 }) =
      [Cmd.glDeleteTextures 1, Cmd.glDeleteTextures 1] ∧
    ReleaseTexture none = [] :=
  ⟨rfl, rfl⟩

/-! ## Shutdown -/

/-- A second `Shutdown` leaves the globals as the first one left them. -/
theorem Shutdown_idempotent (st : Renderer) :
    (Shutdown (Shutdown st).1).1 = (Shutdown st).1 := by
  unfold Shutdown
  by_cases h : st.s_glContext = 0 <;> simp [h]

/-- `Shutdown` unbinds the window and clears the context and the loader flag. -/
theorem Shutdown_unbinds (st : Renderer) :
    (Shutdown st).1.s_window = 0 ∧ (Shutdown st).1.s_glContext = 0 ∧
    (Shutdown st).1.s_glewInitialized = false := by
  unfold Shutdown
  by_cases h : st.s_glContext = 0 <;> simp [h]

/-- `Shutdown` keeps the captured thread, the buffer handles and the shader
program as they were. -/
theorem Shutdown_keeps_handles (st : Renderer) :
    (Shutdown st).1.s_renderThreadId = st.s_renderThreadId ∧
    (Shutdown st).1.quadVAO = st.quadVAO ∧ (Shutdown st).1.quadVBO = st.quadVBO ∧
    (Shutdown st).1.lineVAO = st.lineVAO ∧ (Shutdown st).1.lineVBO = st.lineVBO ∧
    (Shutdown st).1.shaderProgram = st.shaderProgram := by
  unfold Shutdown
  by_cases h : st.s_glContext = 0 <;> simp [h]

/-- C17, the code at the failing input: after a successful `Init` on thread 1
from program start, `Shutdown` resets the window and the context but leaves the
captured thread, the quad and line handles and the shader program at their
post-`Init` values, which differ from the pre-`Init` ones; the line buffers are
not deleted either. -/
theorem Shutdown_leaves_stale_state :
    (Init Renderer.initial InitEnv.ok 1 5).1 = true ∧
    (Shutdown Renderer.ready).1.s_window = Renderer.initial.s_window ∧
    (Shutdown Renderer.ready).1.s_glContext = Renderer.initial.s_glContext ∧
    ((Shutdown Renderer.ready).1.s_renderThreadId = some 1 ∧
      Renderer.initial.s_renderThreadId = none) ∧
    ((Shutdown Renderer.ready).1.quadVAO = 2 ∧ Renderer.initial.quadVAO = 0) ∧
    ((Shutdown Renderer.ready).1.quadVBO = 2 ∧ Renderer.initial.quadVBO = 0) ∧
    ((Shutdown Renderer.ready).1.lineVAO = 1 ∧ Renderer.initial.lineVAO = 0) ∧
    ((Shutdown Renderer.ready).1.lineVBO = 1 ∧ Renderer.initial.lineVBO = 0) ∧
    ((Shutdown Renderer.ready).1.shaderProgram = 3 ∧ Renderer.initial.shaderProgram = 0) ∧
    (Shutdown Renderer.ready).2 =
      [Cmd.SDL_GL_DeleteContext 7, Cmd.glDeleteVertexArrays 2, Cmd.glDeleteBuffers 2] := by
  refine ⟨rfl, rfl, rfl, ⟨rfl, rfl⟩, ⟨rfl, rfl⟩, ⟨rfl, rfl⟩, ⟨rfl, rfl⟩, ⟨rfl, rfl⟩,
    ⟨rfl, rfl⟩, rfl⟩

/-! ## Failed initialisation -/

/-- Past its first line `Init` records the window it was given, whatever
happens afterwards. -/
theorem Init_records_window (st : Renderer) (env : InitEnv) (thread window : Nat)
    (h0 : st.s_window = 0) :
    (Init st env thread window).2.1.s_window = window := by
  unfold Init Init.pipeline
  simp only [h0, ne_eq, not_true_eq_false, if_false]
  split_ifs <;> rfl

/-- With no window bound, `Init` attempts the context creation. -/
theorem Init_attempts_context (st : Renderer) (env : InitEnv) (thread window : Nat)
    (h0 : st.s_window = 0) :
    Cmd.SDL_GL_CreateContext window ∈ (Init st env thread window).2.2 := by
  unfold Init
  simp only [h0, ne_eq, not_true_eq_false, if_false]
  split_ifs <;> simp

/-- C20 as stated fails for the null window: `Init(nullptr)` from program
start fails at context creation and leaves no window bound, and the following
`Init` with window 5 runs in full, creating a context. -/
theorem failed_Init_with_null_window :
    (Init Renderer.initial { InitEnv.ok with context := 0 } 1 0).1 = false ∧
    (Init Renderer.initial { InitEnv.ok with context := 0 } 1 0).2.1.s_window = 0 ∧
    Cmd.SDL_GL_CreateContext 5 ∈
      (Init (Init Renderer.initial { InitEnv.ok with context := 0 } 1 0).2.1
        InitEnv.ok 1 5).2.2 := by
  refine ⟨rfl, rfl, ?_⟩
  simp [Init, Renderer.initial, InitEnv.ok]

/-- C20, amended. If an `Init` call with a non-null window fails, that window
stays recorded as bound, so every later `Init` call, with any window, returns
success, issues no command and changes nothing; after `Shutdown` no window is
bound and `Init` attempts the context creation again. -/
theorem failed_Init_blocks_later_Init (st : Renderer) (env env2 : InitEnv)
    (thread thread2 window window2 : Nat) (hw : window ≠ 0)
    (hfail : (Init st env thread window).1 = false) :
    (Init st env thread window).2.1.s_window = window ∧
    Init (Init st env thread window).2.1 env2 thread2 window2 =
      (true, (Init st env thread window).2.1, []) ∧
    (Shutdown (Init st env thread window).2.1).1.s_window = 0 ∧
    Cmd.SDL_GL_CreateContext window2 ∈
      (Init (Shutdown (Init st env thread window).2.1).1 env2 thread2 window2).2.2 := by
  have h0 : st.s_window = 0 := by
    by_contra h
    rw [Init_bound st env thread window h] at hfail
    cases hfail
  refine ⟨Init_records_window st env thread window h0,
    Init_bound _ env2 thread2 window2 (Init_binds_window st env thread window hw),
    (Shutdown_unbinds _).1,
    Init_attempts_context _ env2 thread2 window2 (Shutdown_unbinds _).1⟩

/-- C20, amended, from program start with window 5 and a version check that
fails; the later call passes window 6. -/
theorem failed_Init_blocks_later_Init_witness :
    (5 : Nat) ≠ 0 ∧
    (Init Renderer.initial { InitEnv.ok with GLEW_VERSION_2_1 := false } 1 5).1 = false ∧
    ((Init Renderer.initial { InitEnv.ok with GLEW_VERSION_2_1 := false } 1 5).2.1.s_window
        = 5 ∧
      Init (Init Renderer.initial { InitEnv.ok with GLEW_VERSION_2_1 := false } 1 5).2.1
          InitEnv.ok 2 6 =
        (true, (Init Renderer.initial { InitEnv.ok with GLEW_VERSION_2_1 := false } 1 5).2.1,
          []) ∧
      (Shutdown
        (Init Renderer.initial { InitEnv.ok with GLEW_VERSION_2_1 := false } 1 5).2.1).1.s_window
        = 0 ∧
      Cmd.SDL_GL_CreateContext 6 ∈
        (Init
          (Shutdown
            (Init Renderer.initial { InitEnv.ok with GLEW_VERSION_2_1 := false } 1 5).2.1).1
          InitEnv.ok 2 6).2.2) :=
  ⟨by decide, rfl,
    failed_Init_blocks_later_Init Renderer.initial
      { InitEnv.ok with GLEW_VERSION_2_1 := false } InitEnv.ok 1 2 5 6 (by decide) rfl⟩

/-! ## Atlas font: the glyph map -/

/-- Filtering out the entries of another key does not change a lookup. -/
theorem lookup_filter_ne {β : Type} (l : List (Nat × β)) (c k : Nat) (h : c ≠ k) :
    (l.filter fun entry => entry.1 ≠ k).lookup c = l.lookup c := by
  induction l with
  | nil => rfl
  | cons p rest ih =>
    obtain ⟨a, b⟩ := p
    by_cases hak : a = k
    · subst hak
      have hca : (c == a) = false := by simpa using h
      rw [List.filter_cons_of_neg (by simp), List.lookup_cons, hca]
      exact ih
    · rw [List.filter_cons_of_pos (by simpa using hak), List.lookup_cons, List.lookup_cons, ih]

/-- `glyphs[k] = g` followed by `GetGlyph(c)`. -/
theorem GetGlyph_setGlyph (font : Font) (k c : Nat) (g : Glyph) :
    (font.setGlyph k g).GetGlyph c = if c = k then some g else font.GetGlyph c := by
  unfold Font.setGlyph Font.GetGlyph
  by_cases h : c = k
  · subst h
    simp [List.lookup_cons]
  · have hck : (c == k) = false := by simpa using h
    rw [List.lookup_cons, hck, if_neg h]
    exact lookup_filter_ne _ c k h

/-- One iteration of the loading loop, seen through `GetGlyph`. -/
theorem step_GetGlyph (env : FontEnv) (color : Color) (acc : Font × List Cmd) (i c : Nat) :
    (Font.Load.step env color acc i).1.GetGlyph c =
      if c = i then
        (match env.loadChar i with
          | none => acc.1.GetGlyph c
          | some slot => some (Font.Load.glyph env i slot))
      else acc.1.GetGlyph c := by
  unfold Font.Load.step
  rcases hl : env.loadChar i with _ | slot
  · simp
  · simp only [GetGlyph_setGlyph]

/-- After the first `n` iterations from an empty map, the map holds exactly the
code points below `n` that rasterised. -/
theorem GetGlyph_fold (env : FontEnv) (color : Color) (start : Font × List Cmd) (n c : Nat)
    (hstart : start.1.glyphs = []) :
    ((List.range n).foldl (Font.Load.step env color) start).1.GetGlyph c =
      if c < n then (env.loadChar c).map (Font.Load.glyph env c) else none := by
  induction n with
  | zero => simp [Font.GetGlyph, hstart]
  | succ n ih =>
    rw [List.range_succ, List.foldl_append]
    simp only [List.foldl_cons, List.foldl_nil]
    rw [step_GetGlyph, ih]
    by_cases hcn : c = n
    · subst hcn
      rcases hl : env.loadChar c with _ | slot <;> simp [hl]
    · by_cases hc : c < n
      · have : c < n + 1 := by omega
        simp [hc, this, hcn]
      · have : ¬ c < n + 1 := by omega
        simp [hc, this, hcn]

/-- C13. For every atlas font produced by `Font::Load` and every code point
`c`, `GetGlyph(c)` returns a record if and only if `c` is in [0,128) and the
rasterisation of `c` succeeded during the load; the record is the one built
from that rasterisation. A failed code point is absent, every other successful
one is present, and a code point outside the range is not found. -/
theorem GetGlyph_after_Load (env : FontEnv) (path : String) (size : Int) (color : Color)
    (font : Font) (c : Nat) (h : (Font.Load env path size color).1 = some font) :
    font.GetGlyph c =
      (if c < 128 then (env.loadChar c).map (Font.Load.glyph env c) else none) ∧
    ((font.GetGlyph c).isSome = true ↔ (c < 128 ∧ (env.loadChar c).isSome = true)) := by
  have hg : font.GetGlyph c =
      (if c < 128 then (env.loadChar c).map (Font.Load.glyph env c) else none) := by
    unfold Font.Load at h
    by_cases h1 : env.initError = true
    · simp [h1] at h
    · by_cases h2 : env.faceError = true
      · simp [h1, h2] at h
      · by_cases h3 : env.sizeError = true
        · simp [h1, h2, h3] at h
        · rw [if_neg h1, if_neg h2, if_neg h3] at h
          rw [← Option.some.inj h]
          exact GetGlyph_fold env color _ 128 c rfl
  refine ⟨hg, ?_⟩
  rw [hg]
  by_cases hc : c < 128 <;> simp [hc]

/-- C13 on a font file in which only code point 66 fails to rasterise: 65 and
67 are found, 66 and 200 are not. -/
theorem GetGlyph_after_Load_witness :
    ∃ font, (Font.Load FontEnv.sample "font.ttf" 16 White).1 = some font ∧
      (font.GetGlyph 65).isSome = true ∧ (font.GetGlyph 67).isSome = true ∧
      font.GetGlyph 66 = none ∧ font.GetGlyph 200 = none :=
  ⟨_, rfl,
    ((GetGlyph_after_Load FontEnv.sample "font.ttf" 16 White _ 65 rfl).2).mpr
      ⟨by decide, rfl⟩,
    ((GetGlyph_after_Load FontEnv.sample "font.ttf" 16 White _ 67 rfl).2).mpr
      ⟨by decide, rfl⟩,
    (GetGlyph_after_Load FontEnv.sample "font.ttf" 16 White _ 66 rfl).1,
    (GetGlyph_after_Load FontEnv.sample "font.ttf" 16 White _ 200 rfl).1⟩

/-! ## Atlas font: the coverage to RGBA conversion -/

/-- Writing pixel `N` keeps the length and extends the finished prefix by one
pixel. -/
theorem rgba_write (buf g : List Nat) (color : Color) (L N : Nat) (hL : buf.length = L)
    (hN : 4 * N + 3 < L) (hinv : Font.Load.pixelsDone buf g color N) :
    ((((buf.set (N * 4 + 0) color.r).set (N * 4 + 1) color.g).set (N * 4 + 2) color.b).set
        (N * 4 + 3) (g.getD N 0)).length = L ∧
    Font.Load.pixelsDone
      ((((buf.set (N * 4 + 0) color.r).set (N * 4 + 1) color.g).set (N * 4 + 2) color.b).set
        (N * 4 + 3) (g.getD N 0)) g color (N + 1) := by
  refine ⟨by simp [hL], ?_⟩
  intro i hi
  by_cases hiN : i = N
  · subst hiN
    simp only [List.getElem?_set, List.length_set, hL]
    refine ⟨?_, ?_, ?_, ?_⟩
    · rw [if_neg (by omega), if_neg (by omega), if_neg (by omega), if_pos (by omega),
        if_pos (by omega)]
    · rw [if_neg (by omega), if_neg (by omega), if_pos (by omega), if_pos (by omega)]
    · rw [if_neg (by omega), if_pos (by omega), if_pos (by omega)]
    · rw [if_pos (by omega), if_pos (by omega)]
  · have hlt : i < N := by omega
    obtain ⟨h0, h1, h2, h3⟩ := hinv i hlt
    simp only [List.getElem?_set]
    refine ⟨?_, ?_, ?_, ?_⟩
    · rw [if_neg (by omega), if_neg (by omega), if_neg (by omega), if_neg (by omega), h0]
    · rw [if_neg (by omega), if_neg (by omega), if_neg (by omega), if_neg (by omega), h1]
    · rw [if_neg (by omega), if_neg (by omega), if_neg (by omega), if_neg (by omega), h2]
    · rw [if_neg (by omega), if_neg (by omega), if_neg (by omega), if_neg (by omega), h3]

/-- The inner loop over `x` on row `y`: after `m` iterations the pixels below
`y * width + m` are finished. -/
theorem rgba_row (g : List Nat) (color : Color) (width height y : Nat) (hy : y < height)
    (buf : List Nat) (hL : buf.length = width * height * 4)
    (hinv : Font.Load.pixelsDone buf g color (y * width)) (m : Nat) (hm : m ≤ width) :
    ((List.range m).foldl
      (fun rgbaBuffer x =>
        let i := y * width + x
        let alpha := g.getD i 0
        (((rgbaBuffer.set (i * 4 + 0) color.r).set (i * 4 + 1) color.g).set
          (i * 4 + 2) color.b).set (i * 4 + 3) alpha) buf).length = width * height * 4 ∧
    Font.Load.pixelsDone
      ((List.range m).foldl
        (fun rgbaBuffer x =>
          let i := y * width + x
          let alpha := g.getD i 0
          (((rgbaBuffer.set (i * 4 + 0) color.r).set (i * 4 + 1) color.g).set
            (i * 4 + 2) color.b).set (i * 4 + 3) alpha) buf) g color (y * width + m) := by
  induction m with
  | zero => exact ⟨hL, hinv⟩
  | succ m ih =>
    obtain ⟨ihL, ihP⟩ := ih (by omega)
    rw [List.range_succ, List.foldl_append]
    simp only [List.foldl_cons, List.foldl_nil]
    have hbound : 4 * (y * width + m) + 3 < width * height * 4 := by
      have h1 : (y + 1) * width ≤ height * width := Nat.mul_le_mul_right width (by omega)
      have h2 : (y + 1) * width = y * width + width := by ring
      have h3 : height * width = width * height := by ring
      omega
    exact rgba_write _ g color _ (y * width + m) ihL hbound ihP

/-- The outer loop over `y`: after `n` rows the pixels below `n * width` are
finished. -/
theorem rgba_rows (g : List Nat) (color : Color) (width height n : Nat) (hn : n ≤ height) :
    ((List.range n).foldl
      (fun rgbaBuffer y =>
        (List.range width).foldl
          (fun rgbaBuffer x =>
            let i := y * width + x
            let alpha := g.getD i 0
            (((rgbaBuffer.set (i * 4 + 0) color.r).set (i * 4 + 1) color.g).set
              (i * 4 + 2) color.b).set (i * 4 + 3) alpha)
          rgbaBuffer)
      (List.replicate (width * height * 4) 0)).length = width * height * 4 ∧
    Font.Load.pixelsDone
      ((List.range n).foldl
        (fun rgbaBuffer y =>
          (List.range width).foldl
            (fun rgbaBuffer x =>
              let i := y * width + x
              let alpha := g.getD i 0
              (((rgbaBuffer.set (i * 4 + 0) color.r).set (i * 4 + 1) color.g).set
                (i * 4 + 2) color.b).set (i * 4 + 3) alpha)
            rgbaBuffer)
        (List.replicate (width * height * 4) 0)) g color (n * width) := by
  induction n with
  | zero =>
    refine ⟨by simp, ?_⟩
    intro i hi
    omega
  | succ n ih =>
    obtain ⟨ihL, ihP⟩ := ih (by omega)
    rw [List.range_succ, List.foldl_append]
    simp only [List.foldl_cons, List.foldl_nil]
    have h := rgba_row g color width height n (by omega) _ ihL ihP width (Nat.le_refl _)
    have he : (n + 1) * width = n * width + width := by ring
    rw [he]
    exact h

/-- C19. For a coverage bitmap of width `w` and height `h` with coverage bytes
`g[0..w*h)` and a tint colour, the RGBA buffer `Font::Load` builds has length
`4*w*h`, and for every pixel index `i < w*h` its bytes at `4i`, `4i+1`, `4i+2`,
`4i+3` are the tint's red, green and blue and `g[i]`; the tint's own alpha does
not enter the buffer. -/
theorem rgbaBuffer_bytes (width height : Nat) (g : List Nat) (color : Color) (i : Nat)
    (hg : width * height ≤ g.length) (hi : i < width * height) :
    (Font.Load.rgbaBuffer width height g color).length = 4 * width * height ∧
    (Font.Load.rgbaBuffer width height g color)[4 * i]? = some color.r ∧
    (Font.Load.rgbaBuffer width height g color)[4 * i + 1]? = some color.g ∧
    (Font.Load.rgbaBuffer width height g color)[4 * i + 2]? = some color.b ∧
    (Font.Load.rgbaBuffer width height g color)[4 * i + 3]? = g[i]? ∧
    ∀ a, Font.Load.rgbaBuffer width height g { color with a := a } =
      Font.Load.rgbaBuffer width height g color := by
  obtain ⟨hL, hP⟩ := rgba_rows g color width height height (Nat.le_refl _)
  have hi2 : i < height * width := by rw [Nat.mul_comm]; exact hi
  obtain ⟨h0, h1, h2, h3⟩ := hP i hi2
  have hgi : g[i]? = some (g.getD i 0) := by
    have : i < g.length := by omega
    simp [List.getD, List.getElem?_eq_getElem this]
  refine ⟨?_, h0, h1, h2, ?_, fun _ => rfl⟩
  · unfold Font.Load.rgbaBuffer
    rw [hL]
    ring
  · rw [hgi]
    exact h3

/-- C19 on a 2×1 bitmap with coverage 7, 9 and the tint red, at pixel 1; the
whole buffer is `255, 0, 0, 7, 255, 0, 0, 9`. -/
theorem rgbaBuffer_bytes_witness :
    Font.Load.rgbaBuffer 2 1 [7, 9] Red = [255, 0, 0, 7, 255, 0, 0, 9] ∧
    ((Font.Load.rgbaBuffer 2 1 [7, 9] Red).length = 4 * 2 * 1 ∧
      (Font.Load.rgbaBuffer 2 1 [7, 9] Red)[4 * 1]? = some Red.r ∧
      (Font.Load.rgbaBuffer 2 1 [7, 9] Red)[4 * 1 + 1]? = some Red.g ∧
      (Font.Load.rgbaBuffer 2 1 [7, 9] Red)[4 * 1 + 2]? = some Red.b ∧
      (Font.Load.rgbaBuffer 2 1 [7, 9] Red)[4 * 1 + 3]? = [7, 9][1]? ∧
      ∀ a, Font.Load.rgbaBuffer 2 1 [7, 9] { Red with a := a } =
        Font.Load.rgbaBuffer 2 1 [7, 9] Red) :=
  ⟨by decide, rgbaBuffer_bytes 2 1 [7, 9] Red 1 (by decide) (by decide)⟩

/-! ## Single-precision rounding -/

namespace Float32

/-- An integer is its own nearest integer. -/
theorem nearestEven_intCast (m : Int) : nearestEven (m : ℚ) = m := by
  simp [nearestEven]

/-- A rational strictly within one half of the integer `n` rounds to `n`. -/
theorem nearestEven_of_near (t : ℚ) (n : Int) (hlo : (n : ℚ) - 1 / 2 < t)
    (hhi : t < (n : ℚ) + 1 / 2) : nearestEven t = n := by
  unfold nearestEven
  by_cases h : (n : ℚ) ≤ t
  · have hf : Int.floor t = n := Int.floor_eq_iff.mpr ⟨h, by linarith⟩
    simp only [hf]
    rw [if_pos (by linarith)]
  · push_neg at h
    have hf : Int.floor t = n - 1 :=
      Int.floor_eq_iff.mpr ⟨by push_cast; linarith, by push_cast; linarith⟩
    simp only [hf]
    rw [if_neg (by push_cast; linarith), if_pos (by push_cast; linarith)]
    ring

/-- Halfway above an even integer rounds down to it. -/
theorem nearestEven_of_tie (t : ℚ) (n : Int) (ht : t = (n : ℚ) + 1 / 2) (hn : n % 2 = 0) :
    nearestEven t = n := by
  unfold nearestEven
  have hf : Int.floor t = n := Int.floor_eq_iff.mpr ⟨by linarith, by linarith⟩
  simp only [hf]
  rw [if_neg (by linarith), if_neg (by linarith), if_pos hn]

/-- The binary exponent of a rational in `[2^e, 2^(e+1))` is `e`. -/
theorem log_eq (a : ℚ) (e : Int) (h1 : (2 : ℚ) ^ e ≤ a) (h2 : a < (2 : ℚ) ^ (e + 1)) :
    Int.log 2 a = e := by
  have hpos : 0 < a := lt_of_lt_of_le (by positivity) h1
  have hle : e ≤ Int.log 2 a :=
    (Int.zpow_le_iff_le_log (by norm_num) hpos).mp (by exact_mod_cast h1)
  have hlt : Int.log 2 a < e + 1 :=
    (Int.lt_zpow_iff_log_lt (by norm_num) hpos).mp (by exact_mod_cast h2)
  omega

/-- Rounding in the normal range, given the binary exponent `e` and the integer `n`
that the scaled value rounds to. -/
theorem roundAbs_eq (a : ℚ) (e n : Int) (he : -126 ≤ e) (h1 : (2 : ℚ) ^ e ≤ a)
    (h2 : a < (2 : ℚ) ^ (e + 1)) (hn : nearestEven (a / (2 : ℚ) ^ (e - 23)) = n) :
    roundAbs a = n * (2 : ℚ) ^ (e - 23) := by
  unfold roundAbs
  rw [log_eq a e h1 h2, max_eq_left he]
  simp only [hn]

/-- Zero rounds to zero. -/
theorem roundAbs_zero : roundAbs 0 = 0 := by
  simp [roundAbs, nearestEven]

/-- Zero is a `float`. -/
theorem round_zero : round 0 = 0 := by
  simp [round, roundAbs_zero]

/-- Rounding commutes with negation. -/
theorem round_neg (x : ℚ) : round (-x) = -round x := by
  unfold round
  rcases lt_trichotomy x 0 with h | h | h
  · rw [if_neg (by linarith), if_pos h]; simp
  · subst h; simp [roundAbs_zero]
  · rw [if_pos (by linarith), if_neg (by linarith)]; simp

/-- On non-negative rationals rounding is `roundAbs`. -/
theorem round_of_pos (x : ℚ) (h : 0 ≤ x) : round x = roundAbs x := by
  unfold round
  rw [if_neg (by linarith)]

/-- One is a `float`. -/
theorem round_one : round 1 = 1 := by
  rw [round_of_pos 1 (by norm_num), roundAbs_eq 1 0 8388608 (by norm_num) (by norm_num) (by norm_num)
    (nearestEven_of_near _ _ (by norm_num) (by norm_num))]
  norm_num

/-- `2^24 + 1` lies halfway between two `float` values and rounds to `2^24`. -/
theorem round_two_pow_24_succ : round 16777217 = 16777216 := by
  rw [round_of_pos _ (by norm_num), roundAbs_eq _ 24 8388608 (by norm_num) (by norm_num) (by norm_num)
    (nearestEven_of_tie _ _ (by norm_num) (by norm_num))]
  norm_num



/-- Natural numbers up to `2^24` are `float` values. -/
theorem round_natCast (n : Nat) (h : n ≤ 16777216) : round (n : ℚ) = n := by
  rcases Nat.eq_zero_or_pos n with h0 | hpos
  · subst h0; simp [round_zero]
  rw [round_of_pos _ (by positivity)]
  rcases eq_or_lt_of_le h with h16 | h16
  · subst h16
    rw [roundAbs_eq _ 24 8388608 (by norm_num) (by norm_num) (by norm_num)
      (nearestEven_of_near _ _ (by norm_num) (by norm_num))]
    norm_num
  have hq : (0 : ℚ) < n := by exact_mod_cast hpos
  have hle : (2 : ℚ) ^ (Int.log 2 (n : ℚ)) ≤ n := by
    have := Int.zpow_log_le_self (b := 2) (by norm_num) hq
    exact_mod_cast this
  have hlt : (n : ℚ) < (2 : ℚ) ^ (Int.log 2 (n : ℚ) + 1) := by
    have := Int.lt_zpow_succ_log_self (b := 2) (by norm_num) (n : ℚ)
    exact_mod_cast this
  have he0 : 0 ≤ Int.log 2 (n : ℚ) :=
    (Int.zpow_le_iff_le_log (by norm_num) hq).mp (by norm_num; exact_mod_cast hpos)
  have he23 : Int.log 2 (n : ℚ) < 24 :=
    (Int.lt_zpow_iff_log_lt (by norm_num) hq).mp (by norm_num; exact_mod_cast h16)
  obtain ⟨k, hk⟩ : ∃ k : Nat, Int.log 2 (n : ℚ) - 23 = -(k : ℤ) := ⟨(23 - Int.log 2 (n : ℚ)).toNat, by omega⟩
  have hdiv : (n : ℚ) / (2 : ℚ) ^ (Int.log 2 (n : ℚ) - 23) = (((n * 2 ^ k : Nat) : ℤ) : ℚ) := by
    rw [hk, zpow_neg, zpow_natCast]; push_cast; field_simp
  rw [roundAbs_eq _ _ ((n * 2 ^ k : Nat) : ℤ) (by omega) hle hlt (by rw [hdiv, nearestEven_intCast]),
    hk, zpow_neg, zpow_natCast]
  push_cast; field_simp

/-- Integers of magnitude at most `2^24` are `float` values. -/
theorem round_intCast (n : Int) (h : |n| ≤ 16777216) : round (n : ℚ) = n := by
  obtain ⟨m, hm | hm⟩ := Int.eq_nat_or_neg n
  · subst hm
    have hb : m ≤ 16777216 := by
      rw [Nat.abs_cast] at h; exact_mod_cast h
    exact_mod_cast round_natCast m hb
  · subst hm
    have hb : m ≤ 16777216 := by
      rw [abs_neg, Nat.abs_cast] at h; exact_mod_cast h
    push_cast
    rw [round_neg, round_natCast m hb]

/-- Rounding of a positive rational with binary exponent `e` whose scaled value
lies strictly within one half of the integer `n`. -/
theorem round_eval (x : ℚ) (e n : Int) (he : -126 ≤ e) (h1 : (2 : ℚ) ^ e ≤ x)
    (h2 : x < (2 : ℚ) ^ (e + 1)) (hlo : (n : ℚ) - 1 / 2 < x / (2 : ℚ) ^ (e - 23))
    (hhi : x / (2 : ℚ) ^ (e - 23) < (n : ℚ) + 1 / 2) : round x = n * (2 : ℚ) ^ (e - 23) := by
  have hpos : 0 ≤ x := le_trans (by positivity) h1
  rw [round_of_pos x hpos, roundAbs_eq x e n he h1 h2 (nearestEven_of_near _ _ hlo hhi)]

/-- Rounding of a positive rational with binary exponent `e` whose scaled value
lies halfway above the even integer `n`. -/
theorem round_eval_tie (x : ℚ) (e n : Int) (he : -126 ≤ e) (h1 : (2 : ℚ) ^ e ≤ x)
    (h2 : x < (2 : ℚ) ^ (e + 1)) (ht : x / (2 : ℚ) ^ (e - 23) = (n : ℚ) + 1 / 2)
    (hn : n % 2 = 0) : round x = n * (2 : ℚ) ^ (e - 23) := by
  have hpos : 0 ≤ x := le_trans (by positivity) h1
  rw [round_of_pos x hpos, roundAbs_eq x e n he h1 h2 (nearestEven_of_tie _ _ ht hn)]

end Float32

/-! ## Single-precision model matrices -/

/-- The single-precision `translate` of the identity by `float` offsets is the
exact translation. -/
theorem float32_translate_one (x y : ℚ) (hx : Float32.round x = x) (hy : Float32.round y = y) :
    glm.float32.translate 1 x y 0 = !![1, 0, 0, x; 0, 1, 0, y; 0, 0, 1, 0; 0, 0, 0, 1] := by
  ext i j
  fin_cases i <;> fin_cases j <;>
    simp [glm.float32.translate, Float32.add, Float32.mul, Float32.round_zero,
      Float32.round_one, hx, hy, Matrix.vecHead, Matrix.vecTail]

/-- The single-precision `scale` of a matrix with a planar linear block. -/
theorem float32_scale_linear (m00 m01 m10 m11 r a b w h : ℚ) :
    glm.float32.scale !![m00, m01, 0, a; m10, m11, 0, b; 0, 0, r, 0; 0, 0, 0, 1] w h 1 =
      !![Float32.mul m00 w, Float32.mul m01 h, 0, a;
         Float32.mul m10 w, Float32.mul m11 h, 0, b;
         0, 0, Float32.round r, 0;
         0, 0, 0, 1] := by
  ext i j
  fin_cases i <;> fin_cases j <;>
    simp [glm.float32.scale, Float32.mul, Float32.round_zero, Matrix.vecHead, Matrix.vecTail]

/-- The model matrix of an unrotated `DrawTexture` on a rectangle of `float`
coordinates is `translate(x, y) * scale(w, h)` without rounding. -/
theorem model_unrotated (lib : Libm) (dest : Rect)
    (hx : Float32.round dest.x = dest.x) (hy : Float32.round dest.y = dest.y)
    (hw : Float32.round dest.w = dest.w) (hh : Float32.round dest.h = dest.h) :
    DrawTexture.model lib dest 0 =
      !![dest.w, 0, 0, dest.x; 0, dest.h, 0, dest.y; 0, 0, 1, 0; 0, 0, 0, 1] := by
  unfold DrawTexture.model
  simp only [ne_eq, not_true_eq_false, if_false]
  rw [float32_translate_one _ _ hx hy, float32_scale_linear]
  simp [Float32.mul, Float32.round_one, hw, hh, Float32.round_zero]

/-! ## Atlas font: text drawing -/

/-- Two functions that agree everywhere give the same concatenation. -/
theorem flatMap_ext {α β : Type} (l : List α) (f g : α → List β) (h : ∀ x, f x = g x) :
    l.flatMap f = l.flatMap g := by
  have : f = g := funext h
  rw [this]

/-- A leading byte without a glyph adds nothing to the pen advance. -/
theorem penAdvance_cons_none (font : Font) (byte : Nat) (rest : List Nat)
    (h : font.GetGlyph (byte % 256) = none) :
    DrawText.penAdvance font (byte :: rest) = DrawText.penAdvance font rest := by
  simp [DrawText.penAdvance, h]

/-- A leading byte with a glyph adds that glyph's advance. -/
theorem penAdvance_cons_some (font : Font) (byte : Nat) (rest : List Nat) (glyph : Glyph)
    (h : font.GetGlyph (byte % 256) = some glyph) :
    DrawText.penAdvance font (byte :: rest) =
      glyph.advance_x + DrawText.penAdvance font rest := by
  simp [DrawText.penAdvance, h]

/-- A leading byte without a glyph leaves the pen where it is. -/
theorem pen_cons_none (font : Font) (start : ℚ) (byte : Nat) (rest : List Nat)
    (h : font.GetGlyph (byte % 256) = none) :
    DrawText.pen font start (byte :: rest) = DrawText.pen font start rest := by
  simp [DrawText.pen, h]

/-- A leading byte with a glyph moves the pen by the rounded sum with that
glyph's advance. -/
theorem pen_cons_some (font : Font) (start : ℚ) (byte : Nat) (rest : List Nat) (glyph : Glyph)
    (h : font.GetGlyph (byte % 256) = some glyph) :
    DrawText.pen font start (byte :: rest) =
      DrawText.pen font (Float32.add start (Float32.ofInt glyph.advance_x)) rest := by
  simp [DrawText.pen, h]

/-- The loop of `DrawText` issues what the account by position lists. -/
theorem DrawText_loop_expected (lib : Libm) (st : Renderer) (font : Font) (text : List Nat)
    (pos : Point) :
    DrawText.loop lib st font text pos = DrawText.expected lib st font text pos := by
  induction text generalizing pos with
  | nil => rfl
  | cons byte rest ih =>
    unfold DrawText.expected
    rw [List.length_cons, List.range_succ_eq_map, List.flatMap_cons, List.flatMap_map]
    unfold DrawText.loop
    rcases hg : font.GetGlyph (byte % 256) with _ | glyph
    · simp only [List.getD_cons_zero, hg, List.nil_append]
      rw [ih pos]
      unfold DrawText.expected
      apply flatMap_ext
      intro k
      simp only [Function.comp_apply, Nat.succ_eq_add_one, List.getD_cons_succ,
        DrawText.rect, List.take_succ_cons, pen_cons_none font _ byte _ hg]
    · simp only [List.getD_cons_zero, hg, List.take_zero, DrawText.rect]
      rw [ih]
      unfold DrawText.expected
      have h0 : DrawText.pen font pos.x [] = pos.x := rfl
      rw [h0]
      apply congrArg
      apply flatMap_ext
      intro k
      simp only [Function.comp_apply, Nat.succ_eq_add_one, List.getD_cons_succ,
        DrawText.rect, List.take_succ_cons, pen_cons_some font _ byte _ glyph hg]

/-- When no conversion and no addition rounds, the pen is the start plus the
sum of the advances. -/
theorem pen_eq_penAdvance (font : Font) (bytes : List Nat) (start : ℚ)
    (hadv : ∀ byte ∈ bytes, ∀ g, font.GetGlyph (byte % 256) = some g →
      Float32.round g.advance_x = g.advance_x)
    (hpen : ∀ j ≤ bytes.length,
      Float32.round (start + DrawText.penAdvance font (bytes.take j)) =
        start + DrawText.penAdvance font (bytes.take j)) :
    DrawText.pen font start bytes = start + DrawText.penAdvance font bytes := by
  induction bytes generalizing start with
  | nil => simp [DrawText.pen, DrawText.penAdvance]
  | cons byte rest ih =>
    rcases hg : font.GetGlyph (byte % 256) with _ | glyph
    · rw [pen_cons_none font start byte rest hg, penAdvance_cons_none font byte rest hg]
      apply ih
      · intro b hb
        exact hadv b (List.mem_cons_of_mem _ hb)
      · intro j hj
        have h := hpen (j + 1) (by simpa using hj)
        rw [List.take_succ_cons, penAdvance_cons_none font byte _ hg] at h
        exact h
    · have ha : Float32.round (glyph.advance_x : ℚ) = glyph.advance_x :=
        hadv byte (List.mem_cons_self _ _) glyph hg
      have h1 := hpen 1 (by simp)
      rw [List.take_succ_cons, List.take_zero, penAdvance_cons_some font byte _ glyph hg] at h1
      have h0 : DrawText.penAdvance font [] = 0 := rfl
      rw [h0, add_zero] at h1
      rw [pen_cons_some font start byte rest glyph hg,
        penAdvance_cons_some font byte rest glyph hg]
      have hstep : Float32.add start (Float32.ofInt glyph.advance_x) =
          start + glyph.advance_x := by
        unfold Float32.add Float32.ofInt
        rw [ha, h1]
      rw [hstep, ← add_assoc]
      apply ih
      · intro b hb
        exact hadv b (List.mem_cons_of_mem _ hb)
      · intro j hj
        have h := hpen (j + 1) (by simpa using hj)
        rw [List.take_succ_cons, penAdvance_cons_some font byte _ glyph hg, ← add_assoc] at h
        exact h

/-- When no conversion and no addition rounds, the rectangle of a byte is the
one with the exact sums. -/
theorem rect_eq_claimedRect (font : Font) (text : List Nat) (pos : Point) (k : Nat)
    (glyph : Glyph)
    (hadv : ∀ byte ∈ text.take k, ∀ g, font.GetGlyph (byte % 256) = some g →
      Float32.round g.advance_x = g.advance_x)
    (hpen : ∀ j ≤ k,
      Float32.round (pos.x + DrawText.penAdvance font (text.take j)) =
        pos.x + DrawText.penAdvance font (text.take j))
    (hleft : Float32.round glyph.bitmap_left = glyph.bitmap_left)
    (hx : Float32.round (pos.x + DrawText.penAdvance font (text.take k) + glyph.bitmap_left) =
      pos.x + DrawText.penAdvance font (text.take k) + glyph.bitmap_left)
    (htop : Float32.round glyph.bitmap_top = glyph.bitmap_top)
    (hy : Float32.round (pos.y - glyph.bitmap_top) = pos.y - glyph.bitmap_top)
    (hw : Float32.round glyph.w = glyph.w) (hh : Float32.round glyph.h = glyph.h) :
    DrawText.rect font text pos k glyph = DrawText.claimedRect font text pos k glyph := by
  have hp : DrawText.pen font pos.x (text.take k) =
      pos.x + DrawText.penAdvance font (text.take k) := by
    apply pen_eq_penAdvance font (text.take k) pos.x hadv
    intro j hj
    have hjk : j ≤ k := le_trans hj (by simp)
    rw [List.take_take, min_eq_left hjk]
    exact hpen j hjk
  unfold DrawText.rect DrawText.claimedRect Float32.add Float32.sub Float32.ofInt
  rw [hp, hleft, hx, htop, hy, hw, hh]

/-- C14, amended. For every text, start position and atlas font, `DrawText(text,
pos, font)` goes through the bytes of `text` in order as code points 0..255: a
byte with no glyph gives no draw and no pen advance, and the byte at position
`k` with glyph `g` gives `DrawTexture` of `g`'s texture with rotation 0 and the
destination rectangle `(pen + g.bitmap_left, pos.y - g.bitmap_top, g.w, g.h)`
computed in `float`, the pen being `pos.x` to which the `advance_x` of the
earlier bytes that had a glyph were added one by one, each sum rounded. When
none of these conversions and sums rounds, the rectangle is `(pos.x + (sum of
the earlier advances) + g.bitmap_left, pos.y - g.bitmap_top, g.w, g.h)`. -/
theorem DrawText_draws_rounded (lib : Libm) (st : Renderer) (text : List Nat)
    (pos : Point) (font : Font) :
    DrawText lib st text pos (some font) = DrawText.expected lib st font text pos ∧
    ∀ (k : Nat) (glyph : Glyph),
      (∀ byte ∈ text.take k, ∀ g, font.GetGlyph (byte % 256) = some g →
        Float32.round g.advance_x = g.advance_x) →
      (∀ j ≤ k,
        Float32.round (pos.x + DrawText.penAdvance font (text.take j)) =
          pos.x + DrawText.penAdvance font (text.take j)) →
      Float32.round glyph.bitmap_left = glyph.bitmap_left →
      Float32.round (pos.x + DrawText.penAdvance font (text.take k) + glyph.bitmap_left) =
        pos.x + DrawText.penAdvance font (text.take k) + glyph.bitmap_left →
      Float32.round glyph.bitmap_top = glyph.bitmap_top →
      Float32.round (pos.y - glyph.bitmap_top) = pos.y - glyph.bitmap_top →
      Float32.round glyph.w = glyph.w → Float32.round glyph.h = glyph.h →
      DrawText.rect font text pos k glyph = DrawText.claimedRect font text pos k glyph :=
  ⟨DrawText_loop_expected lib st font text pos,
    fun k glyph hadv hpen hleft hx htop hy hw hh =>
      rect_eq_claimedRect font text pos k glyph hadv hpen hleft hx htop hy hw hh⟩

/-- The advances met before position 2 of "ABC" in the two-glyph atlas are
`float` values. -/
theorem twoGlyphs_advances :
    ∀ byte ∈ ([65, 66, 67] : List Nat).take 2, ∀ g,
      Font.twoGlyphs.GetGlyph (byte % 256) = some g →
        Float32.round g.advance_x = g.advance_x := by
  intro byte hb g hg
  simp only [List.take, List.mem_cons, List.mem_singleton, List.not_mem_nil, or_false] at hb
  rcases hb with rfl | rfl
  · have : g = ⟨1, 9, 8, 66, 2, 1⟩ := (Option.some.inj hg).symm
    subst this
    exact Float32.round_intCast 8 (by decide)
  · have hB : Font.twoGlyphs.GetGlyph (66 % 256) = none := rfl
    rw [hB] at hg
    cases hg

/-- The pen positions up to position 2 of "ABC" from x = 10 in the two-glyph
atlas are `float` values. -/
theorem twoGlyphs_pens :
    ∀ j ≤ 2,
      Float32.round ((10 : ℚ) + DrawText.penAdvance Font.twoGlyphs (([65, 66, 67] : List Nat).take j)) =
        (10 : ℚ) + DrawText.penAdvance Font.twoGlyphs (([65, 66, 67] : List Nat).take j) := by
  have h10 : Float32.round 10 = 10 := by exact_mod_cast Float32.round_natCast 10 (by norm_num)
  have h18 : Float32.round 18 = 18 := by exact_mod_cast Float32.round_natCast 18 (by norm_num)
  have hA : Font.twoGlyphs.GetGlyph 65 = some ⟨1, 9, 8, 66, 2, 1⟩ := rfl
  have hB : Font.twoGlyphs.GetGlyph 66 = none := rfl
  intro j hj
  interval_cases j <;>
    norm_num [DrawText.penAdvance, hA, hB, h10, h18]

/-- C14 on "ABC" from (10, 20) in an atlas without a glyph for `B`: the draws
are those of the account by position, and `C`, at position 2, is drawn one
advance after `A`, at (19, 11) with size 2×1. -/
theorem DrawText_draws_rounded_witness :
    DrawText Libm.sample Renderer.ready [65, 66, 67] ⟨10, 20⟩ (some Font.twoGlyphs) =
      DrawText.expected Libm.sample Renderer.ready Font.twoGlyphs [65, 66, 67] ⟨10, 20⟩ ∧
    DrawText.rect Font.twoGlyphs [65, 66, 67] ⟨10, 20⟩ 2 ⟨1, 9, 8, 68, 2, 1⟩ =
      DrawText.claimedRect Font.twoGlyphs [65, 66, 67] ⟨10, 20⟩ 2 ⟨1, 9, 8, 68, 2, 1⟩ ∧
    DrawText.claimedRect Font.twoGlyphs [65, 66, 67] ⟨10, 20⟩ 2 ⟨1, 9, 8, 68, 2, 1⟩ =
      ⟨19, 11, 2, 1⟩ := by
  have hA : Font.twoGlyphs.GetGlyph 65 = some ⟨1, 9, 8, 66, 2, 1⟩ := rfl
  have hB : Font.twoGlyphs.GetGlyph 66 = none := rfl
  have hc : DrawText.claimedRect Font.twoGlyphs [65, 66, 67] ⟨10, 20⟩ 2 ⟨1, 9, 8, 68, 2, 1⟩ =
      ⟨19, 11, 2, 1⟩ := by
    norm_num [DrawText.claimedRect, DrawText.penAdvance, hA, hB]
  refine ⟨(DrawText_draws_rounded Libm.sample Renderer.ready [65, 66, 67] ⟨10, 20⟩
      Font.twoGlyphs).1,
    (DrawText_draws_rounded Libm.sample Renderer.ready [65, 66, 67] ⟨10, 20⟩
      Font.twoGlyphs).2 2 ⟨1, 9, 8, 68, 2, 1⟩ twoGlyphs_advances twoGlyphs_pens
      (Float32.round_intCast 1 (by decide)) ?_ (Float32.round_intCast 9 (by decide)) ?_
      (Float32.round_intCast 2 (by decide)) (Float32.round_intCast 1 (by decide)), hc⟩
  · have h19 : Float32.round 19 = 19 := by exact_mod_cast Float32.round_natCast 19 (by norm_num)
    norm_num [DrawText.penAdvance, hA, hB, h19]
  · have h11 : Float32.round 11 = 11 := by exact_mod_cast Float32.round_natCast 11 (by norm_num)
    norm_num [h11]

/-- C14 as stated fails on "AAA" drawn from x = 2^24 with a glyph that advances
the pen by 1: every sum `2^24 + 1` rounds back to `2^24`, so the pen never
moves and all three glyphs are drawn at x = 16777216, while the stated
rectangle of the third one is at x = 16777218, which is a different draw. -/
theorem DrawText_pen_stalls :
    DrawText Libm.sample Renderer.ready [65, 65, 65] ⟨16777216, 0⟩ (some Font.unitAdvance) =
      DrawTexture Libm.sample Renderer.ready 7 ⟨16777216, 0, 1, 1⟩ 0 ++
        (DrawTexture Libm.sample Renderer.ready 7 ⟨16777216, 0, 1, 1⟩ 0 ++
          DrawTexture Libm.sample Renderer.ready 7 ⟨16777216, 0, 1, 1⟩ 0) ∧
    DrawText.claimedRect Font.unitAdvance [65, 65, 65] ⟨16777216, 0⟩ 2 ⟨0, 0, 1, 7, 1, 1⟩ =
      ⟨16777218, 0, 1, 1⟩ ∧
    DrawTexture Libm.sample Renderer.ready 7 ⟨16777218, 0, 1, 1⟩ 0 ≠
      DrawTexture Libm.sample Renderer.ready 7 ⟨16777216, 0, 1, 1⟩ 0 := by
  have hA : Font.unitAdvance.GetGlyph 65 = some ⟨0, 0, 1, 7, 1, 1⟩ := rfl
  have h16 : Float32.round 16777216 = 16777216 := by
    exact_mod_cast Float32.round_natCast 16777216 (by norm_num)
  have h18 : Float32.round 16777218 = 16777218 := by
    rw [Float32.round_eval _ 24 8388609 (by norm_num) (by norm_num) (by norm_num) (by norm_num)
      (by norm_num)]
    norm_num
  have hpen : Float32.add 16777216 1 = 16777216 := by
    unfold Float32.add
    rw [show (16777216 + 1 : ℚ) = 16777217 by norm_num, Float32.round_two_pow_24_succ]
  have hx : Float32.add 16777216 (Float32.ofInt 0) = 16777216 := by
    unfold Float32.add Float32.ofInt
    rw [Int.cast_zero, Float32.round_zero, add_zero, h16]
  have hy : Float32.sub 0 (Float32.ofInt 0) = 0 := by
    unfold Float32.sub Float32.ofInt
    rw [Int.cast_zero, Float32.round_zero, sub_zero, Float32.round_zero]
  have hw : Float32.ofInt 1 = 1 := by
    unfold Float32.ofInt
    rw [Int.cast_one, Float32.round_one]
  refine ⟨?_, ?_, ?_⟩
  · simp only [DrawText, DrawText.loop, Nat.reduceMod, hA, hw, hpen, hx, hy, List.append_nil]
  · norm_num [DrawText.claimedRect, DrawText.penAdvance, hA]
  · intro h
    have hm : DrawTexture.model Libm.sample ⟨16777218, 0, 1, 1⟩ 0 =
        DrawTexture.model Libm.sample ⟨16777216, 0, 1, 1⟩ 0 := by
      simpa [DrawTexture] using h
    rw [model_unrotated _ _ h18 Float32.round_zero Float32.round_one Float32.round_one,
      model_unrotated _ _ h16 Float32.round_zero Float32.round_one Float32.round_one] at hm
    have h03 := congrFun (congrFun hm 0) 3
    norm_num at h03

/-! ## Model matrices -/

/-- The matrix `translate(x, y) * scale(w, h)` sends the unit-quad corner
`(u, v)` to `(x + u*w, y + v*h)`. -/
theorem translate_scale_apply (x y w h u v : ℚ) :
    Matrix.mulVec (glm.scale (glm.translate 1 x y 0) w h 1) ![u, v, 0, 1] =
      ![x + u * w, y + v * h, 0, 1] := by
  ext i
  fin_cases i <;>
    simp [glm.scale, glm.translate, Matrix.mulVec, Matrix.dotProduct, Fin.sum_univ_four,
      Matrix.mul_apply, Matrix.one_apply] <;> ring

/-- C15. For every rectangle `(x, y, w, h)` and colour, `DrawRect` issues
exactly one draw, a 4-vertex triangle fan on the quad geometry, with
`useTexture` set to false and with the model matrix `translate(x, y) *
scale(w, h)`, which maps the unit-quad corner `(u, v)` to `(x + u*w, y + v*h)`;
the model matrices of `DrawRect(Rect(100,100,200,150), Red)` and
`DrawRect(Rect(150,100,200,150), White)` differ. -/
theorem DrawRect_quad_draw (st : Renderer) (caller : Nat) (rect : Rect) (fill : Color) :
    DrawRect st caller rect fill =
      Except.ok
        [ Cmd.glUniformMatrix4fv st.shaderProgram "model"
            (glm.scale (glm.translate 1 rect.x rect.y 0) rect.w rect.h 1),
          Cmd.glUniform1i st.shaderProgram "useTexture" 0,
          Cmd.glUniform4f st.shaderProgram "color"
            (fill.r / 255) (fill.g / 255) (fill.b / 255) (fill.a / 255),
          Cmd.glBindVertexArray st.quadVAO,
          Cmd.glDrawArrays "GL_TRIANGLE_FAN" 0 4 ] ∧
    (∀ u v : ℚ,
      Matrix.mulVec (glm.scale (glm.translate 1 rect.x rect.y 0) rect.w rect.h 1)
          ![u, v, 0, 1] =
        ![rect.x + u * rect.w, rect.y + v * rect.h, 0, 1]) ∧
    glm.scale (glm.translate 1 100 100 0) 200 150 1 ≠
      glm.scale (glm.translate 1 150 100 0) 200 150 1 := by
  refine ⟨rfl, fun u v => translate_scale_apply _ _ _ _ u v, ?_⟩
  intro h
  have h03 := congrFun (congrFun h 0) 3
  simp [glm.scale, glm.translate, Matrix.mul_apply, Fin.sum_univ_four,
    Matrix.one_apply] at h03

/-- The projection writes of a concatenation are those of its parts, in order. -/
theorem projectionUploads_append (program : Nat) (a b : List Cmd) :
    projectionUploads program (a ++ b) = projectionUploads program a ++ projectionUploads program b := by
  simp [projectionUploads]

/-- `DrawRect` writes no projection. -/
theorem DrawRect_no_upload (program : Nat) (st : Renderer) (caller : Nat) (rect : Rect) (fill : Color) (cmds : List Cmd)
    (h : DrawRect st caller rect fill = Except.ok cmds) : projectionUploads program cmds = [] := by
  cases h
  simp [projectionUploads, Cmd.projectionUpload]

/-- `DrawLine` writes no projection. -/
theorem DrawLine_no_upload (program : Nat) (st : Renderer) (p1 p2 : Point) (color : Color) (width : ℚ) :
    projectionUploads program (DrawLine st p1 p2 color width) = [] := by
  simp [DrawLine, projectionUploads, Cmd.projectionUpload]

/-- `DrawTexture` writes no projection. -/
theorem DrawTexture_no_upload (program : Nat) (lib : Libm) (st : Renderer) (tex : Nat) (dest : Rect) (rotation : ℚ) :
    projectionUploads program (DrawTexture lib st tex dest rotation) = [] := by
  unfold DrawTexture
  split_ifs <;> simp [projectionUploads, Cmd.projectionUpload]

/-- The loop of the atlas `DrawText` writes no projection. -/
theorem DrawText_loop_no_upload (program : Nat) (lib : Libm) (st : Renderer) (font : Font) (text : List Nat) (pos : Point) :
    projectionUploads program (DrawText.loop lib st font text pos) = [] := by
  induction text generalizing pos with
  | nil => rfl
  | cons byte rest ih =>
    unfold DrawText.loop
    rcases hg : font.GetGlyph (byte % 256) with _ | glyph
    · simpa [hg] using ih pos
    · simp only [hg]
      rw [projectionUploads_append, DrawTexture_no_upload, ih]
      rfl

/-- `GetTextTexture` writes no projection on any of its exits. -/
theorem GetTextTexture_no_upload (program : Nat) (env : TextEnv) (font : Option FontA) (text : Option String) (color : Color) :
    projectionUploads program (FontA.GetTextTexture env font text color).2.2 = [] := by
  unfold FontA.GetTextTexture
  rcases font with _ | f
  · rfl
  rcases text with _ | text
  · rfl
  by_cases h1 : f.TextCache = text
  · simp [h1, projectionUploads]
  rcases hs : env.surface with _ | surface
  · simp [h1, projectionUploads, Cmd.projectionUpload]
  rcases hc : env.converted with _ | converted
  · simp [h1, projectionUploads, Cmd.projectionUpload]
  by_cases he : env.err = GL_NO_ERROR
  · rcases ho : f.TextureCached with _ | old
    · simp [h1, he, ho, projectionUploads, Cmd.projectionUpload]
    · by_cases h0 : old.id = 0 <;>
        simp [h1, he, ho, h0, projectionUploads, Cmd.projectionUpload, Texture.destroy]
  · simp [h1, he, projectionUploads, Cmd.projectionUpload]


/-- The string-cache `DrawText` writes no projection. -/
theorem DrawText_fontA_no_upload (program : Nat) (lib : Libm) (st : Renderer) (env : TextEnv)
    (text : String) (pos : Point) (font : Option FontA) (color : Color) (scale rotation : ℚ)
    (result : Option FontA × List Cmd)
    (h : DrawText.fontA lib st env text pos font color scale rotation = Except.ok result) :
    projectionUploads program result.2 = [] := by
  have hget := GetTextTexture_no_upload program env font (some text) color
  unfold DrawText.fontA at h
  rcases hr : FontA.GetTextTexture env font (some text) color with ⟨texture, font2, cmds⟩
  rw [hr] at h hget
  rcases texture with _ | texture
  · cases h
  · simp only [] at h hget
    by_cases h0 : texture.id = 0
    · simp only [h0, if_true] at h
      cases h
      exact hget
    · simp only [h0, if_false, DrawTexture.ptr] at h
      cases h
      simp only []
      rw [projectionUploads_append, hget, DrawTexture_no_upload]
      rfl

/-- No call of the application after `Init` writes the projection. -/
theorem Call_run_no_upload (program : Nat) (lib : Libm) (st : Renderer) (call : Call) :
    projectionUploads program (Call.run lib st call).2.1 = [] := by
  cases call with
  | HandleWindowResize width height =>
    simp [Call.run, HandleWindowResize, projectionUploads, Cmd.projectionUpload]
  | DrawRect caller rect fill =>
    simp [Call.run, DrawRect, projectionUploads, Cmd.projectionUpload, pure, Except.pure]
  | DrawLine p1 p2 color width => exact DrawLine_no_upload program st p1 p2 color width
  | DrawTexture tex dest rotation => exact DrawTexture_no_upload program lib st tex dest rotation
  | DrawTexturePtr tex dest rotation =>
    rcases tex with _ | t
    · simp [Call.run, DrawTexture.ptr, projectionUploads]
    · simpa [Call.run, DrawTexture.ptr] using DrawTexture_no_upload program lib st t.id dest rotation
  | DrawText text pos font =>
    rcases font with _ | font
    · simp [Call.run, DrawText, projectionUploads]
    · simpa [Call.run, DrawText] using DrawText_loop_no_upload program lib st font text pos
  | DrawTextFontA env text pos font color scale rotation =>
    rcases hr : DrawText.fontA lib st env text pos font color scale rotation with e | result
    · simp only [Call.run, hr]
      exact GetTextTexture_no_upload program env font (some text) color
    · simp only [Call.run, hr]
      exact DrawText_fontA_no_upload program lib st env text pos font color scale rotation
        result hr

/-- No sequence of such calls writes the projection. -/
theorem runCalls_no_upload (program : Nat) (lib : Libm) (calls : List Call) (st : Renderer) :
    projectionUploads program (runCalls lib st calls).2 = [] := by
  induction calls generalizing st with
  | nil => rfl
  | cons call rest ih =>
    have hc := Call_run_no_upload program lib st call
    unfold runCalls
    rcases hr : Call.run lib st call with ⟨st2, cmds, faulted⟩
    rw [hr] at hc
    cases faulted
    · simp only []
      rw [projectionUploads_append, hc, ih]
      rfl
    · simpa using hc

/-- A full, successful run of `Init` stores the generated program and writes
the projection exactly once, with `ortho(0, width, height, 0)` of the window
size it read. -/
theorem Init_uploads_once (st : Renderer) (env : InitEnv) (thread window : Nat)
    (h0 : st.s_window = 0) (hok : (Init st env thread window).1 = true) :
    (Init st env thread window).2.1.shaderProgram = env.program ∧
    projectionUploads env.program (Init st env thread window).2.2 =
      [glm.ortho 0 env.width env.height 0] := by
  unfold Init at hok ⊢
  simp only [h0, ne_eq, not_true_eq_false, if_false] at hok ⊢
  by_cases hc : env.context = 0
  · simp [hc] at hok
  by_cases hg : env.glewErr = GLEW_OK
  swap
  · simp [hc, hg] at hok
  by_cases hv : env.GLEW_VERSION_2_1 = true
  swap
  · simp [hc, hg, hv] at hok
  simp only [hc, hg, hv, if_false, not_true_eq_false, not_false_eq_true, ne_eq]
  refine ⟨rfl, ?_⟩
  unfold Init.pipeline
  by_cases h1 : env.vertexCompiled = true <;> by_cases h2 : env.fragmentCompiled = true <;>
    by_cases h3 : env.linked = true <;>
    simp [h1, h2, h3, projectionUploads, Cmd.projectionUpload]

/-- C22. `HandleWindowResize(w, h)` stores `ortho(0, w, h, 0)` as the
projection matrix and issues only `glViewport(0, 0, w, h)`, no upload. After an
`Init` that ran in full and succeeded, followed by any sequence of
`HandleWindowResize`, `DrawRect`, `DrawLine`, `DrawTexture` and `DrawText`
calls, the only write to the shader's `projection` uniform is the one of
`Init`, so the uniform holds `ortho(0, width, height, 0)` for the window size
read at `Init`. -/
theorem projection_written_only_by_Init (lib : Libm) (st : Renderer) (env : InitEnv)
    (thread window : Nat) (calls : List Call) (current : Option Mat4)
    (h0 : st.s_window = 0) (hok : (Init st env thread window).1 = true) :
    (∀ (st2 : Renderer) (w h : Int),
      HandleWindowResize st2 w h =
        ({ st2 with s_projection := glm.ortho 0 w h 0 }, [Cmd.glViewport 0 0 w h])) ∧
    projectionUploads (Init st env thread window).2.1.shaderProgram
        ((Init st env thread window).2.2 ++
          (runCalls lib (Init st env thread window).2.1 calls).2) =
      [glm.ortho 0 env.width env.height 0] ∧
    shaderProjection (Init st env thread window).2.1.shaderProgram current
        ((Init st env thread window).2.2 ++
          (runCalls lib (Init st env thread window).2.1 calls).2) =
      some (glm.ortho 0 env.width env.height 0) := by
  obtain ⟨hp, hu⟩ := Init_uploads_once st env thread window h0 hok
  have hall : projectionUploads (Init st env thread window).2.1.shaderProgram
      ((Init st env thread window).2.2 ++
        (runCalls lib (Init st env thread window).2.1 calls).2) =
      [glm.ortho 0 env.width env.height 0] := by
    rw [projectionUploads_append, runCalls_no_upload, hp, hu]
    rfl
  refine ⟨fun _ _ _ => rfl, hall, ?_⟩
  unfold shaderProjection
  rw [hall]
  rfl

/-- C22 from program start with an 800×600 window, followed by a resize to
1024×768 and one call of each drawing operation. -/
theorem projection_written_only_by_Init_witness :
    Renderer.initial.s_window = 0 ∧ (Init Renderer.initial InitEnv.ok 1 5).1 = true ∧
    ((∀ (st2 : Renderer) (w h : Int),
      HandleWindowResize st2 w h =
        ({ st2 with s_projection := glm.ortho 0 w h 0 }, [Cmd.glViewport 0 0 w h])) ∧
    projectionUploads (Init Renderer.initial InitEnv.ok 1 5).2.1.shaderProgram
        ((Init Renderer.initial InitEnv.ok 1 5).2.2 ++
          (runCalls Libm.sample (Init Renderer.initial InitEnv.ok 1 5).2.1 sampleCalls).2) =
      [glm.ortho 0 InitEnv.ok.width InitEnv.ok.height 0] ∧
    shaderProjection (Init Renderer.initial InitEnv.ok 1 5).2.1.shaderProgram none
        ((Init Renderer.initial InitEnv.ok 1 5).2.2 ++
          (runCalls Libm.sample (Init Renderer.initial InitEnv.ok 1 5).2.1 sampleCalls).2) =
      some (glm.ortho 0 InitEnv.ok.width InitEnv.ok.height 0)) :=
  ⟨rfl, rfl,
    projection_written_only_by_Init Libm.sample Renderer.initial InitEnv.ok 1 5 sampleCalls
      none rfl rfl⟩

/-- After a resize the stored projection is that of the new size, whatever the
shader still holds. -/
theorem stored_projection_after_resize (lib : Libm) (st : Renderer) (w h : Int) :
    (runCalls lib st [Call.HandleWindowResize w h]).1.s_projection = glm.ortho 0 w h 0 :=
  rfl

namespace Event

/-! ## Injectivity of the key translation -/

/-- The translations of the case labels are pairwise distinct. -/
theorem mapped_translations_nodup : (mappedKeys.map ConvertSDLKeyCode).Nodup := by
  decide

/-- A platform key code translated to something other than `Unknown` is one of
the case labels. -/
theorem mem_mappedKeys_of_ne_unknown (k : Int) (h : ConvertSDLKeyCode k ≠ KeyCode.Unknown) :
    k ∈ mappedKeys := by
  by_contra hk
  exact h (ConvertSDLKeyCode_of_not_mem k hk)

/-- C21. For any two distinct platform key codes that both translate to a
value other than `Unknown`, the translated key codes are distinct; and
`PollEvents` of a key-down or key-up event for the first leaves `IsKeyPressed`
of the translation of the second unchanged. -/
theorem key_translation_injective {κ : Type} (k1 k2 : Int) (hne : k1 ≠ k2)
    (h1 : ConvertSDLKeyCode k1 ≠ KeyCode.Unknown)
    (h2 : ConvertSDLKeyCode k2 ≠ KeyCode.Unknown)
    (d : Dispatcher κ) (e : SDL_Event)
    (ht : e.type = SDL_KEYDOWN ∨ e.type = SDL_KEYUP) (he : e.key_sym = k1) :
    ConvertSDLKeyCode k1 ≠ ConvertSDLKeyCode k2 ∧
    IsKeyPressed (PollEvents d e).1 (ConvertSDLKeyCode k2) =
      IsKeyPressed d (ConvertSDLKeyCode k2) := by
  have hinj : ConvertSDLKeyCode k1 ≠ ConvertSDLKeyCode k2 := fun h =>
    hne (List.inj_on_of_nodup_map mapped_translations_nodup
      (mem_mappedKeys_of_ne_unknown k1 h1) (mem_mappedKeys_of_ne_unknown k2 h2) h)
  refine ⟨hinj, ?_⟩
  subst he
  unfold IsKeyPressed
  rcases ht with ht | ht
  · rw [PollEvents_keyDown_keyStates d e ht, Function.update_noteq (Ne.symm hinj)]
  · rw [PollEvents_keyUp_keyStates d e ht, Function.update_noteq (Ne.symm hinj)]

/-- C21 for the keys `B` and `A`: with `A` held down, a key-down event for `B`
leaves `IsKeyPressed(A)` as it was. -/
theorem key_translation_injective_witness :
    SDLK_b ≠ SDLK_a ∧ ConvertSDLKeyCode SDLK_b ≠ KeyCode.Unknown ∧
    ConvertSDLKeyCode SDLK_a ≠ KeyCode.Unknown ∧
    ((SDL_Event.keyDown SDLK_b).type = SDL_KEYDOWN ∨
      (SDL_Event.keyDown SDLK_b).type = SDL_KEYUP) ∧
    (SDL_Event.keyDown SDLK_b).key_sym = SDLK_b ∧
    (ConvertSDLKeyCode SDLK_b ≠ ConvertSDLKeyCode SDLK_a ∧
      IsKeyPressed (PollEvents busyDispatcher (SDL_Event.keyDown SDLK_b)).1
          (ConvertSDLKeyCode SDLK_a) =
        IsKeyPressed busyDispatcher (ConvertSDLKeyCode SDLK_a)) :=
  ⟨by decide, by decide, by decide, Or.inl rfl, rfl,
    key_translation_injective SDLK_b SDLK_a (by decide) (by decide) (by decide)
      busyDispatcher (SDL_Event.keyDown SDLK_b) (Or.inl rfl) rfl⟩

end Event

end gfx
